import Mathlib

/-!
Verification development for the NAJM-POC accident-reporting demo
application.  The definitions below are shallow embeddings of the
JavaScript sources: the JSON-file conversation server, the SQLite
backend routes, and the chat client logic.  All state is explicit and
all functions are executable.
-/

namespace NajmPOC

/-! ## JavaScript values and truthiness -/

/-- Model of a JavaScript/JSON value.  Numbers are modelled as exact
rationals (the mathematical value denoted by a JSON number literal). -/
inductive JsValue where
  | null
  | undef
  | bool (b : Bool)
  | num (q : Rat)
  | str (s : String)
  | arr (elems : List JsValue)
  | obj (fields : List (String × JsValue))

/-- JavaScript truthiness of a value (as used by `if (x)` tests in the
sources).  Objects and arrays are always truthy. -/
def JsValue.truthy : JsValue → Bool
  | .null => false
  | .undef => false
  | .bool b => b
  | .num q => q != 0
  | .str s => s != ""
  | .arr _ => true
  | .obj _ => true

/-- Truthiness of an optional request-body field: an absent field is
`undefined`, hence falsy. -/
def optTruthy : Option JsValue → Bool
  | none => false
  | some v => v.truthy

/-- Truthiness of an optional string field (absent or empty is falsy). -/
def strTruthy : Option String → Bool
  | none => false
  | some s => s != ""

/-! ## JSON-file conversation server (`server.js`): data model

The server keeps `tickets.json` as `{ tickets: [...] }`.  A ticket is
created with keys `id`, `createdAt`, `uploads`; the fields `transcript`,
`extracted_data` and `description` are added only when the posted value
is truthy.  Timestamps are modelled as abstract `Nat` clock values. -/

/-- A file entry stored by the upload endpoint and pushed onto a ticket
`uploads` array. -/
structure SavedFile where
  filename : String
  originalName : String
  url : String
  type : String
  size : Nat
  mimetype : String
deriving DecidableEq

/-- A ticket record of the JSON-file conversation server. -/
structure JTicket where
  id : String
  createdAt : Nat
  updatedAt : Nat
  uploads : List SavedFile
  transcript : Option JsValue
  extracted_data : Option JsValue
  description : Option JsValue

/-- Response shape of the conversation-server ticket endpoints. -/
structure JServerResp where
  status : Nat
  success : Bool
  message : Option String
  ticket : Option JTicket

/-- Fresh ticket object as built by `POST /tickets` when no ticket with
the given id exists yet. -/
def newJTicket (tid : String) (now : Nat) : JTicket :=
  ⟨tid, now, now, [], none, none, none⟩

/-- The field updates of `POST /tickets`: each of the three data fields
is overwritten only when the posted value is truthy, and `updatedAt` is
refreshed. -/
def applyTicketUpdate (t : JTicket) (now : Nat)
    (transcript extracted_data description : Option JsValue) : JTicket :=
  { t with
    transcript := if optTruthy transcript then transcript else t.transcript
    extracted_data := if optTruthy extracted_data then extracted_data else t.extracted_data
    description := if optTruthy description then description else t.description
    updatedAt := now }

/-- Replace the first ticket with the given id (the JS code mutates the
object returned by `Array.prototype.find`). -/
def replaceFirst (db : List JTicket) (tid : String) (u : JTicket) : List JTicket :=
  match db with
  | [] => []
  | t :: ts => if t.id == tid then u :: ts else t :: replaceFirst ts tid u

/-- `POST /tickets` of the conversation server: missing/falsy ticket id
is a 400; otherwise the ticket is found or freshly created, the truthy
fields are written, and the whole ticket is returned. -/
def postTickets (db : List JTicket) (now : Nat) (ticket_id : Option String)
    (transcript extracted_data description : Option JsValue) :
    JServerResp × List JTicket :=
  if strTruthy ticket_id = false then
    (⟨400, false, some "Ticket ID is required", none⟩, db)
  else
    match db.find? (fun t => t.id == ticket_id.getD "") with
    | some t0 =>
      (⟨200, true, some "Ticket saved successfully",
        some (applyTicketUpdate t0 now transcript extracted_data description)⟩,
       replaceFirst db (ticket_id.getD "")
         (applyTicketUpdate t0 now transcript extracted_data description))
    | none =>
      (⟨200, true, some "Ticket saved successfully",
        some (applyTicketUpdate (newJTicket (ticket_id.getD "") now) now
          transcript extracted_data description)⟩,
       db ++ [applyTicketUpdate (newJTicket (ticket_id.getD "") now) now
         transcript extracted_data description])

/-- `GET /tickets/:id` of the conversation server. -/
def getTicket (db : List JTicket) (id : String) : JServerResp :=
  match db.find? (fun t => t.id == id) with
  | none => ⟨404, false, some "Ticket not found", none⟩
  | some t => ⟨200, true, none, some t⟩

/-! ## Chat client: `parseLLMState` (`app.js`)

`parseLLMState` runs `message.match(/\{[\s\S]*"phase"[\s\S]*\}/)` and
feeds the matched text to `JSON.parse`, returning `null` on no match or
a parse error.  For this pattern the (leftmost, greedy) match is the
span from the first `\x7b` of the message through the last `\x7d` that
lies after a `"phase"` occurrence itself after that first `\x7b`:

* the match starts at the first `\x7b` (if a match starts anywhere, one
  starts there, since the stars match any characters);
* after backtracking, the first star ends at a `"phase"` occurrence and
  the second greedy star extends to the last `\x7d` of the string lying
  after it; the last `\x7d` after the first such occurrence equals the
  last `\x7d` after the occurrence chosen by backtracking. -/

/-- The literal `"phase"` (with its quotes) searched by the regex. -/
def phasePat : List Char := ['\x22', 'p', 'h', 'a', 's', 'e', '\x22']

/-- Suffix strictly after the first `\x7b`, if any. -/
def dropUntilBrace : List Char → Option (List Char)
  | [] => none
  | c :: t => if c = '\x7b' then some t else dropUntilBrace t

/-- Split at the first occurrence of `phasePat`: returns the characters
before the occurrence and the suffix after it. -/
def splitAtPhase : List Char → Option (List Char × List Char)
  | [] => none
  | c :: t =>
    if phasePat.isPrefixOf (c :: t) then some ([], (c :: t).drop 7)
    else (splitAtPhase t).map (fun p => (c :: p.1, p.2))

/-- The prefix of `l` up to and including its last `\x7d`, if any. -/
def takeThroughLastBrace (l : List Char) : Option (List Char) :=
  match l.reverse.dropWhile (fun c => c != '\x7d') with
  | [] => none
  | r => some r.reverse

/-- The text matched by `/\{[\s\S]*"phase"[\s\S]*\}/` on the message, if
any: from the first `\x7b`, through the first `"phase"` after it, to
the last `\x7d` after that occurrence. -/
def extractStateSpan (l : List Char) : Option (List Char) :=
  match dropUntilBrace l with
  | none => none
  | some t =>
    match splitAtPhase t with
    | none => none
    | some (a, b) =>
      match takeThroughLastBrace b with
      | none => none
      | some c => some ('\x7b' :: (a ++ phasePat ++ c))

/-! ### JSON.parse model

A fuel-indexed recursive-descent parser for the JSON grammar, matching
`JSON.parse`: whitespace is space/tab/LF/CR; strings support the eight
escapes and `\uXXXX` (modelled as the scalar value, surrogate-pair
combination not modelled) and reject raw control characters; numbers
follow the JSON grammar (no leading zeros) and denote exact rationals;
a value must span the whole input up to trailing whitespace. -/

def isJsonWs (c : Char) : Bool :=
  c = ' ' || c = '\t' || c = '\n' || c = '\r'

def skipWs (l : List Char) : List Char := l.dropWhile isJsonWs

def isDigitC (c : Char) : Bool := '0' ≤ c && c ≤ '9'

def digitsToNat (ds : List Char) : Nat :=
  ds.foldl (fun n c => n * 10 + (c.toNat - 48)) 0

def hexVal (c : Char) : Option Nat :=
  if '0' ≤ c && c ≤ '9' then some (c.toNat - 48)
  else if 'a' ≤ c && c ≤ 'f' then some (c.toNat - 87)
  else if 'A' ≤ c && c ≤ 'F' then some (c.toNat - 55)
  else none

/-- Body of a JSON string literal after the opening quote; returns the
decoded characters and the remainder after the closing quote. -/
def parseStringBody : Nat → List Char → Option (List Char × List Char)
  | 0, _ => none
  | _ + 1, [] => none
  | fuel + 1, c :: rest =>
    if c = '\x22' then some ([], rest)
    else if c = '\\' then
      match rest with
      | [] => none
      | e :: rest2 =>
        if e = '\x22' then
          (parseStringBody fuel rest2).map (fun p => ('\x22' :: p.1, p.2))
        else if e = '\\' then
          (parseStringBody fuel rest2).map (fun p => ('\\' :: p.1, p.2))
        else if e = '/' then
          (parseStringBody fuel rest2).map (fun p => ('/' :: p.1, p.2))
        else if e = 'b' then
          (parseStringBody fuel rest2).map (fun p => ('\x08' :: p.1, p.2))
        else if e = 'f' then
          (parseStringBody fuel rest2).map (fun p => ('\x0c' :: p.1, p.2))
        else if e = 'n' then
          (parseStringBody fuel rest2).map (fun p => ('\n' :: p.1, p.2))
        else if e = 'r' then
          (parseStringBody fuel rest2).map (fun p => ('\r' :: p.1, p.2))
        else if e = 't' then
          (parseStringBody fuel rest2).map (fun p => ('\t' :: p.1, p.2))
        else if e = 'u' then
          match rest2 with
          | h1 :: h2 :: h3 :: h4 :: rest3 =>
            match hexVal h1, hexVal h2, hexVal h3, hexVal h4 with
            | some x1, some x2, some x3, some x4 =>
              (parseStringBody fuel rest3).map
                (fun p => (Char.ofNat (((x1 * 16 + x2) * 16 + x3) * 16 + x4) :: p.1, p.2))
            | _, _, _, _ => none
          | _ => none
        else none
    else if c.toNat < 32 then none
    else (parseStringBody fuel rest).map (fun p => (c :: p.1, p.2))

/-- Exponent digits of a JSON number. -/
def parseExpDigits (q : Rat) (negExp : Bool) (l : List Char) :
    Option (Rat × List Char) :=
  let ds := l.takeWhile isDigitC
  if ds.isEmpty then none
  else
    let e := digitsToNat ds
    some ((if negExp then q / ((10 ^ e : Nat) : Rat) else q * ((10 ^ e : Nat) : Rat)),
      l.drop ds.length)

/-- Optional exponent part of a JSON number. -/
def parseExp (q : Rat) (l : List Char) : Option (Rat × List Char) :=
  match l with
  | [] => some (q, [])
  | c :: t =>
    if c = 'e' || c = 'E' then
      match t with
      | '+' :: t2 => parseExpDigits q false t2
      | '-' :: t2 => parseExpDigits q true t2
      | t2 => parseExpDigits q false t2
    else some (q, c :: t)

/-- Optional fraction then exponent of a JSON number. -/
def parseFracExp (intPart : Nat) (l : List Char) : Option (Rat × List Char) :=
  match l with
  | '.' :: t =>
    let fd := t.takeWhile isDigitC
    if fd.isEmpty then none
    else parseExp ((intPart : Rat) + mkRat (digitsToNat fd) (10 ^ fd.length))
      (t.drop fd.length)
  | _ => parseExp (intPart : Rat) l

/-- Unsigned JSON number: `0` or a nonzero digit followed by digits. -/
def parseNumberCore (l : List Char) : Option (Rat × List Char) :=
  match l with
  | [] => none
  | c :: t =>
    if c = '0' then parseFracExp 0 t
    else if isDigitC c then
      let ds := (c :: t).takeWhile isDigitC
      parseFracExp (digitsToNat ds) ((c :: t).drop ds.length)
    else none

/-- A JSON number with optional leading minus. -/
def parseNumber (l : List Char) : Option (Rat × List Char) :=
  match l with
  | '-' :: t => (parseNumberCore t).map (fun p => (-p.1, p.2))
  | _ => parseNumberCore l

mutual

/-- One JSON value, consuming leading whitespace. -/
def parseValue : Nat → List Char → Option (JsValue × List Char)
  | 0, _ => none
  | fuel + 1, l =>
    match skipWs l with
    | [] => none
    | c :: rest =>
      if c = '\x7b' then
        match skipWs rest with
        | '\x7d' :: r2 => some (.obj [], r2)
        | r2 => (parseMembers fuel r2).map (fun p => (JsValue.obj p.1, p.2))
      else if c = '[' then
        match skipWs rest with
        | ']' :: r2 => some (.arr [], r2)
        | r2 => (parseElems fuel r2).map (fun p => (JsValue.arr p.1, p.2))
      else if c = '\x22' then
        (parseStringBody fuel rest).map (fun p => (JsValue.str (String.mk p.1), p.2))
      else if c = 't' then
        match rest with
        | 'r' :: 'u' :: 'e' :: r2 => some (.bool true, r2)
        | _ => none
      else if c = 'f' then
        match rest with
        | 'a' :: 'l' :: 's' :: 'e' :: r2 => some (.bool false, r2)
        | _ => none
      else if c = 'n' then
        match rest with
        | 'u' :: 'l' :: 'l' :: r2 => some (.null, r2)
        | _ => none
      else if c = '-' || isDigitC c then
        (parseNumber (c :: rest)).map (fun p => (JsValue.num p.1, p.2))
      else none

/-- Nonempty member list of a JSON object, up to the closing brace. -/
def parseMembers : Nat → List Char → Option (List (String × JsValue) × List Char)
  | 0, _ => none
  | fuel + 1, l =>
    match skipWs l with
    | '\x22' :: r =>
      match parseStringBody fuel r with
      | none => none
      | some (k, r2) =>
        match skipWs r2 with
        | ':' :: r3 =>
          match parseValue fuel r3 with
          | none => none
          | some (v, r4) =>
            match skipWs r4 with
            | ',' :: r5 =>
              (parseMembers fuel r5).map (fun p => ((String.mk k, v) :: p.1, p.2))
            | '\x7d' :: r5 => some ([(String.mk k, v)], r5)
            | _ => none
        | _ => none
    | _ => none

/-- Nonempty element list of a JSON array, up to the closing bracket. -/
def parseElems : Nat → List Char → Option (List JsValue × List Char)
  | 0, _ => none
  | fuel + 1, l =>
    match parseValue fuel l with
    | none => none
    | some (v, r) =>
      match skipWs r with
      | ',' :: r2 => (parseElems fuel r2).map (fun p => (v :: p.1, p.2))
      | ']' :: r2 => some ([v], r2)
      | _ => none

end

/-- `JSON.parse`: a single JSON value spanning the whole input (the
fuel bound exceeds any possible recursion depth). -/
def parseJson (s : String) : Option JsValue :=
  match parseValue (2 * s.length + 4) s.data with
  | some (v, rest) => if (skipWs rest).isEmpty then some v else none
  | none => none

/-- `parseLLMState` of `app.js`: `JSON.parse` applied to the regex
match, with `null` on no match or a caught parse error. -/
def parseLLMState (message : String) : Option JsValue :=
  match extractStateSpan message.data with
  | none => none
  | some s => parseJson (String.mk s)

/-! ## SQLite backend (`backend/database/db.js`, `backend/routes/*.js`)

The schema declares `ticket_id TEXT UNIQUE NOT NULL` on `tickets`, and
the child tables `conversations`, `findings`, `audio_files` and
`attachments` each carry `FOREIGN KEY (ticket_id) REFERENCES
tickets(ticket_id) ON DELETE CASCADE` with `PRAGMA foreign_keys = ON`.
A violated constraint makes the prepared statement raise, which the
route handlers catch. -/

/-- Row of the `tickets` table. -/
structure TicketRow where
  rowid : Nat
  ticket_id : String
  user_id : Option Nat
  plate : Option String
  vehicles : Int
  damage : Option String
  status : String
deriving DecidableEq

/-- Row of the `attachments` table. -/
structure AttachmentRow where
  ticket_id : String
  filename : String
  original_name : String
  file_path : String
  file_type : String
  attachment_type : String
  size : Int
deriving DecidableEq

/-- Row of the `conversations` table. -/
structure ConversationRow where
  ticket_id : String
  role : String
  content : String
  audio_path : Option String
  transcription : Option String
deriving DecidableEq

/-- Row of the `findings` table. -/
structure FindingRow where
  ticket_id : String
  field_name : String
  field_value : Option String
  confidence : Option Rat
  source : String
deriving DecidableEq

/-- Row of the `audio_files` table. -/
structure AudioRow where
  ticket_id : String
  file_path : String
  file_type : Option String
  duration : Option Rat
deriving DecidableEq

/-- The SQLite database state (the tables touched by the routes under
verification; `users` is read-only for these routes and kept separate). -/
structure DBState where
  nextRowid : Nat
  tickets : List TicketRow
  attachments : List AttachmentRow
  conversations : List ConversationRow
  findings : List FindingRow
  audio_files : List AudioRow
deriving DecidableEq

/-- The empty database produced by `initializeDatabase`. -/
def emptyDB : DBState := ⟨0, [], [], [], [], []⟩

/-- JavaScript `x || null` on an optional string: an absent or empty
string becomes SQL NULL. -/
def orNullStr (o : Option String) : Option String :=
  match o with
  | some s => if s = "" then none else some s
  | none => none

/-- JavaScript `x || null` on an optional integer id (0 is falsy). -/
def orNullNat (o : Option Nat) : Option Nat :=
  match o with
  | some n => if n = 0 then none else some n
  | none => none

/-- JavaScript `vehicles || 1` (absent or 0 becomes 1). -/
def jsVehicles (o : Option Int) : Int :=
  match o with
  | some v => if v == 0 then 1 else v
  | none => 1

/-- Attachment object of a `POST /api/tickets` request body; every field
may be absent (`Option`), mirroring the `||` defaulting in the handler. -/
structure AttachmentInput where
  filename : Option String
  originalName : Option String
  filePath : Option String
  url : Option String
  fileType : Option String
  attachmentType : Option String
  type : Option String
  size : Option Int

/-- Insert of one attachment inside `POST /api/tickets`.  The insert
succeeds when the NOT NULL columns can be bound (`filename` present and
`filePath || url` present); a failing insert is caught per attachment
and the row is skipped. -/
def attachmentRowOf (tid : String) (a : AttachmentInput) : Option AttachmentRow :=
  match a.filename, (orNullStr a.filePath).orElse (fun _ => orNullStr a.url) with
  | some fn, some fp =>
    some ⟨tid, fn, a.originalName.getD fn, fp, a.fileType.getD "image/jpeg",
          ((orNullStr a.attachmentType).orElse (fun _ => orNullStr a.type)).getD "unknown",
          a.size.getD 0⟩
  | _, _ => none

/-- Body of a `POST /api/tickets` request. -/
structure CreateTicketReq where
  ticket_id : Option String
  plate : Option String
  vehicles : Option Int
  damage : Option String
  user_id : Option Nat
  attachments : List AttachmentInput

/-- Response of a SQLite backend route (status code, `success` flag and
`message` of the JSON body). -/
structure ApiResp where
  status : Nat
  success : Bool
  message : String
deriving DecidableEq

/-- The ticket row inserted by `POST /api/tickets`. -/
def createdTicketRow (db : DBState) (r : CreateTicketReq) : TicketRow :=
  ⟨db.nextRowid, r.ticket_id.getD "", orNullNat r.user_id, orNullStr r.plate,
   jsVehicles r.vehicles, orNullStr r.damage, "open"⟩

/-- The attachment rows successfully inserted by `POST /api/tickets`. -/
def createdAttachmentRows (r : CreateTicketReq) : List AttachmentRow :=
  r.attachments.filterMap (attachmentRowOf (r.ticket_id.getD ""))

/-- `POST /api/tickets`: requires a truthy ticket id.  The INSERT of a
duplicate `ticket_id` violates the UNIQUE constraint and the statement
raises a `SqliteError`; better-sqlite3 sets its `code` from the
extended result code, `SQLITE_CONSTRAINT_UNIQUE`, so the catch block's
strict comparison `error.code === 'SQLITE_CONSTRAINT'` never matches,
its 409 branch is dead code, and the handler falls through to the
generic 500 response with message `Error creating ticket` — still
without inserting anything.  Otherwise the ticket row and the valid
attachment rows are inserted and 201 is returned. -/
def postApiTickets (db : DBState) (r : CreateTicketReq) : ApiResp × DBState :=
  if strTruthy r.ticket_id = false then
    (⟨400, false, "Ticket ID is required"⟩, db)
  else
    if db.tickets.any (fun t => t.ticket_id == r.ticket_id.getD "") then
      (⟨500, false, "Error creating ticket"⟩, db)
    else
      (⟨201, true, "Ticket created successfully"⟩,
       { db with
         nextRowid := db.nextRowid + 1
         tickets := db.tickets ++ [createdTicketRow db r]
         attachments := db.attachments ++ createdAttachmentRows r })

/-- The `COALESCE` row update of `PUT /api/tickets/:ticketId`; the
`ticket_id` column is never written. -/
def updateTicketFields (tid : String) (plate : Option String)
    (vehicles : Option Int) (damage status : Option String)
    (t : TicketRow) : TicketRow :=
  if t.ticket_id == tid then
    { t with
      plate := plate.orElse (fun _ => t.plate)
      vehicles := vehicles.getD t.vehicles
      damage := damage.orElse (fun _ => t.damage)
      status := status.getD t.status }
  else t

/-- `PUT /api/tickets/:ticketId`: 404 when the ticket does not exist;
otherwise a `COALESCE` update of the data columns (never of
`ticket_id`). -/
def putApiTickets (db : DBState) (tid : String)
    (plate : Option String) (vehicles : Option Int)
    (damage status : Option String) : ApiResp × DBState :=
  if db.tickets.any (fun t => t.ticket_id == tid) = false then
    (⟨404, false, "Ticket not found"⟩, db)
  else
    (⟨200, true, "Ticket updated successfully"⟩,
     { db with
       tickets := db.tickets.map (updateTicketFields tid plate vehicles damage status) })

/-- `DELETE /api/tickets/:ticketId`: requires the admin role; the DELETE
statement removes the matching ticket rows and, through `ON DELETE
CASCADE`, every child row of the deleted tickets; `changes === 0` yields
a 404. -/
def deleteApiTickets (db : DBState) (userRole : String) (tid : String) :
    ApiResp × DBState :=
  if userRole ≠ "admin" then (⟨403, false, "Admin access required"⟩, db)
  else
    if (db.tickets.filter (fun t => t.ticket_id == tid)).length = 0 then
      (⟨404, false, "Ticket not found"⟩,
       { db with tickets := db.tickets.filter (fun t => !(t.ticket_id == tid)) })
    else
      (⟨200, true, "Ticket deleted successfully"⟩,
       { db with
         tickets := db.tickets.filter (fun t => !(t.ticket_id == tid))
         attachments := db.attachments.filter (fun a => !(a.ticket_id == tid))
         conversations := db.conversations.filter (fun c => !(c.ticket_id == tid))
         findings := db.findings.filter (fun f => !(f.ticket_id == tid))
         audio_files := db.audio_files.filter (fun a => !(a.ticket_id == tid)) })

/-- `POST /api/tickets/:ticketId/conversations`: role and content are
required; the INSERT raises on a foreign-key violation (no such
ticket), which the generic catch answers with 500. -/
def postApiConversations (db : DBState) (tid role content : String)
    (audio_path transcription : Option String) : ApiResp × DBState :=
  if role = "" ∨ content = "" then
    (⟨400, false, "Role and content are required"⟩, db)
  else if db.tickets.any (fun t => t.ticket_id == tid) = false then
    (⟨500, false, "Error adding conversation"⟩, db)
  else
    (⟨201, true, "Conversation added successfully"⟩,
     { db with conversations :=
         db.conversations ++ [⟨tid, role, content, orNullStr audio_path, orNullStr transcription⟩] })

/-- `POST /api/tickets/:ticketId/findings`: field name required; a
foreign-key violation is caught as 500. -/
def postApiFindings (db : DBState) (tid field_name : String)
    (field_value : Option String) (confidence : Option Rat)
    (source : Option String) : ApiResp × DBState :=
  if field_name = "" then
    (⟨400, false, "Field name is required"⟩, db)
  else if db.tickets.any (fun t => t.ticket_id == tid) = false then
    (⟨500, false, "Error adding finding"⟩, db)
  else
    (⟨201, true, "Finding added successfully"⟩,
     { db with findings :=
         db.findings ++ [⟨tid, field_name, orNullStr field_value,
           confidence, (orNullStr source).getD "manual"⟩] })

/-- `POST /api/upload/audio`: with a truthy ticket id, the audio row is
inserted; a foreign-key violation is caught (the saved file is unlinked)
and answered with 500; without a ticket id no row is written. -/
def postApiUploadAudio (db : DBState) (ticket_id : Option String)
    (file_path : String) (file_type : Option String)
    (duration : Option Rat) : ApiResp × DBState :=
  match orNullStr ticket_id with
  | none => (⟨200, true, "Audio uploaded successfully"⟩, db)
  | some tid =>
    if db.tickets.any (fun t => t.ticket_id == tid) = false then
      (⟨500, false, "Error uploading audio"⟩, db)
    else
      (⟨200, true, "Audio uploaded successfully"⟩,
       { db with audio_files := db.audio_files ++ [⟨tid, file_path, file_type, duration⟩] })

/-- `POST /api/upload/transcribe`: after a successful vendor call, with
a truthy ticket id both an audio row and a conversation row are
inserted; a foreign-key violation on the first insert aborts both. -/
def postApiTranscribe (db : DBState) (ticket_id : Option String)
    (file_path : String) (file_type : String) (apiOk : Bool)
    (text : String) : ApiResp × DBState :=
  if apiOk = false then (⟨500, false, "Error transcribing audio"⟩, db)
  else
    match orNullStr ticket_id with
    | none => (⟨200, true, "Audio transcribed successfully"⟩, db)
    | some tid =>
      if db.tickets.any (fun t => t.ticket_id == tid) = false then
        (⟨500, false, "Error transcribing audio"⟩, db)
      else
        (⟨200, true, "Audio transcribed successfully"⟩,
         { db with
           audio_files := db.audio_files ++ [⟨tid, file_path, some file_type, none⟩]
           conversations := db.conversations ++ [⟨tid, "user", text, some file_path, some text⟩] })

/-- The init script (`init-db.js`) seeds two sample tickets with
`INSERT OR IGNORE`: an existing `ticket_id` is skipped. -/
def seedOne (db : DBState) (tid : String) (plate : String) (vehicles : Int)
    (damage status : String) : DBState :=
  if db.tickets.any (fun t => t.ticket_id == tid) then db
  else
    { db with
      nextRowid := db.nextRowid + 1
      tickets := db.tickets ++ [⟨db.nextRowid, tid, none, some plate, vehicles, some damage, status⟩] }

/-- `createSampleData` of the init script. -/
def seedSampleData (db : DBState) : DBState :=
  seedOne (seedOne db "A-1001" "ABC1234" 2 "Front bumper damage" "open")
    "A-1002" "XYZ5678" 1 "Side mirror broken" "pending"

/-- One request against the SQLite backend that can modify the database. -/
inductive DBEvent where
  | create (r : CreateTicketReq)
  | update (tid : String) (plate : Option String) (vehicles : Option Int)
      (damage status : Option String)
  | delete (userRole : String) (tid : String)
  | addConversation (tid role content : String)
      (audio_path transcription : Option String)
  | addFinding (tid field_name : String) (field_value : Option String)
      (confidence : Option Rat) (source : Option String)
  | uploadAudio (ticket_id : Option String) (file_path : String)
      (file_type : Option String) (duration : Option Rat)
  | transcribe (ticket_id : Option String) (file_path file_type : String)
      (apiOk : Bool) (text : String)
  | seedSamples

/-- State transition of the database under one event. -/
def applyDB (e : DBEvent) (db : DBState) : DBState :=
  match e with
  | .create r => (postApiTickets db r).2
  | .update tid p v d s => (putApiTickets db tid p v d s).2
  | .delete role tid => (deleteApiTickets db role tid).2
  | .addConversation tid r c a t => (postApiConversations db tid r c a t).2
  | .addFinding tid n v c s => (postApiFindings db tid n v c s).2
  | .uploadAudio tid fp ft d => (postApiUploadAudio db tid fp ft d).2
  | .transcribe tid fp ft ok tx => (postApiTranscribe db tid fp ft ok tx).2
  | .seedSamples => seedSampleData db

/-- A database state reachable from the freshly initialized schema by
backend requests. -/
inductive Reachable : DBState → Prop where
  | init : Reachable emptyDB
  | step (e : DBEvent) (db : DBState) : Reachable db → Reachable (applyDB e db)

/-- Uniqueness of `ticket_id` over the tickets table. -/
def ticketIdsUnique (db : DBState) : Prop :=
  db.tickets.Pairwise (fun a b => a.ticket_id ≠ b.ticket_id)

/-- A ticket with the given id exists. -/
def hasTicket (db : DBState) (tid : String) : Prop :=
  ∃ t ∈ db.tickets, t.ticket_id = tid

/-- The combined structural invariant of the SQLite database: unique
non-empty ticket ids, and every child row referencing an existing
ticket. -/
structure DBInv (db : DBState) : Prop where
  uniq : ticketIdsUnique db
  nonempty_ids : ∀ t ∈ db.tickets, t.ticket_id ≠ ""
  att_fk : ∀ a ∈ db.attachments, hasTicket db a.ticket_id
  conv_fk : ∀ c ∈ db.conversations, hasTicket db c.ticket_id
  find_fk : ∀ f ∈ db.findings, hasTicket db f.ticket_id
  audio_fk : ∀ a ∈ db.audio_files, hasTicket db a.ticket_id

/-! ## Chat client: upload gating and phase UI (`app.js`) -/

/-- The phases in which the client allows a file upload
(`validUploadPhases` in `handleImageUpload`, `uploadPhases` in
`updateUIForPhase`; the two lists are identical). -/
def uploadPhases : List String :=
  ["accident_photos", "id_card", "driving_license", "vehicle_registration"]

/-- A browser `File` object as used by `handleImageUpload` (only its
MIME type matters for control flow). -/
structure JsFile where
  type : String
deriving DecidableEq

/-- Observable behaviour of one `handleImageUpload` invocation. -/
inductive UploadAction where
  | noFile
  | alertInvalidImage
  | waitForInstructions
  | uploadTo (uploadType : String)
deriving DecidableEq

/-- The `switch (currentPhase)` selecting the backend upload type (the
switch has no default; it is only reached for the four phases). -/
def uploadTypeForPhase (phase : String) : String :=
  if phase = "accident_photos" then "accident_photos"
  else if phase = "id_card" then "id_cards"
  else if phase = "driving_license" then "driving_licenses"
  else if phase = "vehicle_registration" then "vehicle_registrations"
  else ""

/-- `handleImageUpload`: no file selected returns silently; a non-image
file gets the invalid-image alert (before any phase check); outside the
upload phases a wait-for-instructions message is shown and the input
reset; otherwise the file is uploaded to the backend. -/
def handleImageUpload (currentPhase : String) (file : Option JsFile) :
    UploadAction :=
  match file with
  | none => .noFile
  | some f =>
    if ("image/".data.isPrefixOf f.type.data) = false then .alertInvalidImage
    else if currentPhase ∉ uploadPhases then .waitForInstructions
    else .uploadTo (uploadTypeForPhase currentPhase)

/-- The chat UI state touched by `updateUIForPhase`: visibility of the
attach button and the input placeholder text. -/
structure ChatUI where
  attachShown : Bool
  placeholder : String
deriving DecidableEq

/-- `updateUIForPhase`: in an upload phase the attach button is shown
and the upload placeholder set; in every other phase only the
placeholder is set (the attach button is left as it was). -/
def updateUIForPhase (lang : String) (phase : String) (ui : ChatUI) : ChatUI :=
  if phase ∈ uploadPhases then
    { ui with
      attachShown := true
      placeholder := if lang = "ar" then "يرجى رفع الصورة المطلوبة..."
        else "Please upload the required image..." }
  else
    { ui with
      placeholder := if lang = "ar" then "اكتب رسالتك..."
        else "Type your message..." }

/-! ## Chat client: session state and ticket creation (`app.js`) -/

/-- The client `uploadedFiles` record. -/
structure UploadedFiles where
  accident_photos : List String
  id_card : Option String
  driving_license : Option String
  vehicle_registration : Option String
deriving DecidableEq

/-- Initial `uploadedFiles` value (also restored by `goToLanding`). -/
def initUploadedFiles : UploadedFiles := ⟨[], none, none, none⟩

/-- The JSON state block parsed from an LLM response (only the phase
drives control flow here). -/
structure LLMState where
  phase : String
deriving DecidableEq

/-- The client session state relevant to ticket creation, with two
ghost counters: `postsSent` counts `POST /tickets` requests issued and
`createdCount` counts successful ticket creations since the last
`goToLanding`. -/
structure SessionState where
  ticketAlreadyCreated : Bool
  currentPhase : String
  uploadedFiles : UploadedFiles
  postsSent : Nat
  createdCount : Nat
deriving DecidableEq

/-- State at page load and after `goToLanding`. -/
def initSession : SessionState := ⟨false, "greeting", initUploadedFiles, 0, 0⟩

/-- Client events: an assistant response (with its parsed state and the
outcome of a ticket-creation POST, when one is attempted), a successful
image upload, and the `goToLanding` reset. -/
inductive ChatEvent where
  | assistantResponse (parsed : Option LLMState) (backendOk : Bool)
  | uploadSuccess (filename : String)
  | backToLanding
deriving DecidableEq

/-- Recording a successful upload in `uploadedFiles` keyed by the
current phase (photos accumulate, documents are single slots). -/
def recordUpload (phase fn : String) (u : UploadedFiles) : UploadedFiles :=
  if phase = "accident_photos" then
    { u with accident_photos := u.accident_photos ++ [fn] }
  else if phase = "id_card" then { u with id_card := some fn }
  else if phase = "driving_license" then { u with driving_license := some fn }
  else if phase = "vehicle_registration" then
    { u with vehicle_registration := some fn }
  else u

/-- One step of the client session.  On an assistant response with a
parsed truthy phase, the phase is stored; when it is `done` and no
ticket was created yet, `createTicketFromLLMData` sends one POST: on
success it marks the ticket created and moves to `completed`, on
failure it only reports an error (the flag stays false).
`goToLanding` resets everything. -/
def applyChat (e : ChatEvent) (s : SessionState) : SessionState :=
  match e with
  | .assistantResponse parsed ok =>
    match parsed with
    | none => s
    | some st =>
      if st.phase = "" then s
      else if st.phase = "done" ∧ s.ticketAlreadyCreated = false then
        if ok then
          { s with
            currentPhase := "completed"
            ticketAlreadyCreated := true
            postsSent := s.postsSent + 1
            createdCount := s.createdCount + 1 }
        else { s with currentPhase := st.phase, postsSent := s.postsSent + 1 }
      else { s with currentPhase := st.phase }
  | .uploadSuccess fn =>
    { s with uploadedFiles := recordUpload s.currentPhase fn s.uploadedFiles }
  | .backToLanding => initSession

/-- A client session run. -/
def runChat (es : List ChatEvent) (s : SessionState) : SessionState :=
  es.foldl (fun st e => applyChat e st) s

/-! ## Conversation server: `POST /upload` (`server.js`) -/

/-- MIME types accepted by the multer `fileFilter`. -/
def allowedUploadTypes : List String :=
  ["image/jpeg", "image/jpg", "image/png", "image/webp", "image/heic",
   "application/pdf"]

/-- The multer `limits.fileSize` bound (10MB). -/
def maxFileSize : Nat := 10 * 1024 * 1024

/-- An incoming multipart file (with the unique name the disk storage
assigned to it). -/
structure IncomingFile where
  filename : String
  originalname : String
  mimetype : String
  size : Nat
deriving DecidableEq

/-- Outcome of multer processing the file array: the accepted files, or
the first error (`fileFilter` rejection, size limit, or the 10-file
count limit of `upload.array`). -/
inductive MulterOutcome where
  | ok (files : List IncomingFile)
  | invalidType
  | tooLarge
  | tooMany
deriving DecidableEq

/-- Sequential multer processing: for each file the filter runs first,
then the streaming size limit; a remaining count of 0 raises the
unexpected-file error. -/
def multerProcess (limit : Nat) : List IncomingFile → MulterOutcome
  | [] => .ok []
  | f :: fs =>
    if limit = 0 then .tooMany
    else if f.mimetype ∈ allowedUploadTypes then
      if f.size > maxFileSize then .tooLarge
      else
        match multerProcess (limit - 1) fs with
        | .ok gs => .ok (f :: gs)
        | e => e
    else .invalidType

/-- The `typeFolderMap` of the upload handler. -/
def typeFolder (t : String) : String :=
  if t = "accident_photos" then "accident_photos"
  else if t = "id_card" then "id_cards"
  else if t = "id_cards" then "id_cards"
  else if t = "driving_license" then "driving_licenses"
  else if t = "driving_licenses" then "driving_licenses"
  else if t = "vehicle_registration" then "vehicle_registrations"
  else if t = "vehicle_registrations" then "vehicle_registrations"
  else "accident_photos"

/-- The response entry built for one accepted file. -/
def savedFileOf (t folder : String) (f : IncomingFile) : SavedFile :=
  ⟨f.filename, f.originalname, "/uploads/" ++ folder ++ "/" ++ f.filename,
   t, f.size, f.mimetype⟩

/-- Response of `POST /upload`. -/
structure UploadResp where
  status : Nat
  success : Bool
  message : String
  files : Option (List SavedFile)
deriving DecidableEq

/-- Ticket update of `POST /upload` when a ticket id is supplied: find
or create the ticket and push the uploaded file entries. -/
def addUploadsToTicket (jdb : List JTicket) (tid : String)
    (saved : List SavedFile) (now : Nat) : List JTicket :=
  match jdb.find? (fun x => x.id == tid) with
  | some t0 =>
    replaceFirst jdb tid
      { t0 with uploads := t0.uploads ++ saved, updatedAt := now }
  | none =>
    jdb ++ [{ newJTicket tid now with uploads := saved }]

/-- `POST /upload`: multer errors are answered by the error middleware
(an invalid type is a plain `Error`, so it falls to the generic 500
branch with the filter message; `LIMIT_FILE_SIZE` is answered 400 with
the fixed message); no accepted file is a 400; otherwise the accepted
files are returned and, when a truthy ticket id is supplied, appended
to that ticket. -/
def postUpload (files : List IncomingFile) (type ticket_id : Option String)
    (jdb : List JTicket) (now : Nat) : UploadResp × List JTicket :=
  match multerProcess 10 files with
  | .invalidType =>
    (⟨500, false, "Invalid file type. Only images and PDF files are allowed.", none⟩, jdb)
  | .tooLarge => (⟨400, false, "File too large. Maximum size is 10MB", none⟩, jdb)
  | .tooMany => (⟨400, false, "Unexpected field", none⟩, jdb)
  | .ok [] => (⟨400, false, "No files uploaded", none⟩, jdb)
  | .ok (g :: gs) =>
    (⟨200, true, toString (g :: gs).length ++ " file(s) uploaded successfully",
      some ((g :: gs).map (savedFileOf
        (if strTruthy type then type.getD "" else "accident_photos")
        (typeFolder (if strTruthy type then type.getD "" else "accident_photos"))))⟩,
     match orNullStr ticket_id with
     | none => jdb
     | some tid =>
       addUploadsToTicket jdb tid
         ((g :: gs).map (savedFileOf
           (if strTruthy type then type.getD "" else "accident_photos")
           (typeFolder (if strTruthy type then type.getD "" else "accident_photos")))) now)

/-! ## SQLite backend: `POST /api/auth/login` (`routes/auth.js`) -/

/-- Row of the `users` table. -/
structure UserRow where
  id : Nat
  username : String
  password_hash : String
  role : String
deriving DecidableEq

/-- The JWT payload signed on a successful login. -/
structure TokenPayload where
  id : Nat
  username : String
  role : String
deriving DecidableEq

/-- A signed token: payload plus the `expiresIn` option passed to
`jwt.sign` (always "24h" here). -/
structure Jwt where
  payload : TokenPayload
  expiresIn : String
deriving DecidableEq

/-- Response of the login route. -/
structure LoginResp where
  status : Nat
  success : Bool
  message : String
  token : Option Jwt
deriving DecidableEq

/-- `POST /api/auth/login`.  The bcrypt comparison is abstracted as a
function from password and stored hash to a Bool. -/
def loginHandler (users : List UserRow) (bcryptCompare : String → String → Bool)
    (username password : Option String) : LoginResp :=
  if strTruthy username = false ∨ strTruthy password = false then
    ⟨400, false, "Username and password are required", none⟩
  else
    match users.find? (fun u => u.username == username.getD "") with
    | none => ⟨401, false, "Invalid username or password", none⟩
    | some u =>
      if bcryptCompare (password.getD "") u.password_hash then
        ⟨200, true, "Login successful", some ⟨⟨u.id, u.username, u.role⟩, "24h"⟩⟩
      else ⟨401, false, "Invalid username or password", none⟩

/-! ## Conversation server: `POST /stt` (`server.js`) -/

/-- The accepted audio file as saved by multer to the temp directory. -/
structure SttFile where
  filename : String
  path : String
  originalname : String
  mimetype : String
deriving DecidableEq

/-- Response of the speech-to-text route. -/
structure SttResp where
  status : Nat
  success : Bool
  message : Option String
  transcription : Option String
deriving DecidableEq

/-- `POST /stt`: result is the response paired with whether the saved
temp audio file still exists afterwards.  A missing Groq API key is an
early `return` inside the `try`, so no exception is thrown and the
catch-block cleanup (`fs.unlinkSync`) never runs for it; the success
path unlinks before responding and the catch path unlinks on any
thrown error. -/
def sttHandler (file : Option SttFile) (groqKey : Option String)
    (apiResult : Except String String) : SttResp × Bool :=
  match file with
  | none => (⟨400, false, some "Audio file is required", none⟩, false)
  | some _ =>
    if strTruthy groqKey = false then
      (⟨500, false, some "Groq API key not configured", none⟩, true)
    else
      match apiResult with
      | .ok text => (⟨200, true, none, some text⟩, false)
      | .error _ => (⟨500, false, some "Error transcribing audio", none⟩, false)

/-! ## Preservation of the SQLite structural invariant -/

theorem strTruthy_getD {o : Option String} (h : strTruthy o = true) :
    o.getD "" ≠ "" := by
  cases o with
  | none => simp [strTruthy] at h
  | some s => simpa [strTruthy] using h

theorem any_tid_false {l : List TicketRow} {tid : String}
    (h : l.any (fun t => t.ticket_id == tid) = false) :
    ∀ t ∈ l, t.ticket_id ≠ tid := by
  intro t ht
  have := List.any_eq_false.mp h t ht
  simpa using this

theorem any_tid_true {l : List TicketRow} {tid : String}
    (h : l.any (fun t => t.ticket_id == tid) = true) :
    ∃ t ∈ l, t.ticket_id = tid := by
  obtain ⟨t, ht, hq⟩ := List.any_eq_true.mp h
  exact ⟨t, ht, by simpa using hq⟩

theorem pairwise_tid_append_single {ts : List TicketRow} {x : TicketRow}
    (h : ts.Pairwise (fun a b => a.ticket_id ≠ b.ticket_id))
    (hx : ∀ t ∈ ts, t.ticket_id ≠ x.ticket_id) :
    (ts ++ [x]).Pairwise (fun a b => a.ticket_id ≠ b.ticket_id) := by
  rw [List.pairwise_append]
  refine ⟨h, List.pairwise_singleton _ _, ?_⟩
  intro a ha b hb
  have : b = x := by simpa using hb
  subst this
  exact hx a ha

theorem attachmentRowOf_tid {tid : String} {a : AttachmentInput} {row : AttachmentRow}
    (h : attachmentRowOf tid a = some row) : row.ticket_id = tid := by
  unfold attachmentRowOf at h
  cases hfn : a.filename with
  | none => rw [hfn] at h; simp at h
  | some fn =>
    cases hfp : (orNullStr a.filePath).orElse (fun _ => orNullStr a.url) with
    | none => rw [hfn, hfp] at h; simp at h
    | some fp =>
      rw [hfn, hfp] at h
      simp only [Option.some.injEq] at h
      rw [← h]

theorem dbInv_empty : DBInv emptyDB := by
  constructor <;> simp [emptyDB, ticketIdsUnique, hasTicket]

theorem dbInv_create (db : DBState) (r : CreateTicketReq) (h : DBInv db) :
    DBInv (postApiTickets db r).2 := by
  unfold postApiTickets
  by_cases h1 : strTruthy r.ticket_id = false
  · rw [if_pos h1]
    exact h
  · rw [if_neg h1]
    by_cases h2 : db.tickets.any (fun t => t.ticket_id == r.ticket_id.getD "") = true
    · rw [if_pos h2]
      exact h
    · have h2f : db.tickets.any (fun t => t.ticket_id == r.ticket_id.getD "") = false := by
        simpa using h2
      have htid : r.ticket_id.getD "" ≠ "" := strTruthy_getD (by simpa using h1)
      have hnotin := any_tid_false h2f
      rw [if_neg h2]
      refine ⟨?_, ?_, ?_, ?_, ?_, ?_⟩
      · exact pairwise_tid_append_single h.uniq (fun t ht => hnotin t ht)
      · intro t ht
        have ht2 : t ∈ db.tickets ++ [createdTicketRow db r] := ht
        rcases List.mem_append.mp ht2 with h3 | h3
        · exact h.nonempty_ids t h3
        · rw [List.mem_singleton] at h3
          subst h3
          exact htid
      · intro a ha
        have ha2 : a ∈ db.attachments ++ createdAttachmentRows r := ha
        rcases List.mem_append.mp ha2 with h3 | h3
        · obtain ⟨t, ht, he⟩ := h.att_fk a h3
          exact ⟨t, List.mem_append_left _ ht, he⟩
        · obtain ⟨x, _, hx⟩ := List.mem_filterMap.mp h3
          refine ⟨createdTicketRow db r,
            List.mem_append_right _ (List.mem_singleton.mpr rfl), ?_⟩
          exact (attachmentRowOf_tid hx).symm
      · intro c hc
        obtain ⟨t, ht, he⟩ := h.conv_fk c hc
        exact ⟨t, List.mem_append_left _ ht, he⟩
      · intro f hf
        obtain ⟨t, ht, he⟩ := h.find_fk f hf
        exact ⟨t, List.mem_append_left _ ht, he⟩
      · intro a ha
        obtain ⟨t, ht, he⟩ := h.audio_fk a ha
        exact ⟨t, List.mem_append_left _ ht, he⟩

theorem updateTicketFields_tid (tid : String) (p : Option String)
    (v : Option Int) (d s : Option String) (t : TicketRow) :
    (updateTicketFields tid p v d s t).ticket_id = t.ticket_id := by
  unfold updateTicketFields
  by_cases h : (t.ticket_id == tid) = true <;> simp [h]

theorem dbInv_put (db : DBState) (tid : String) (p : Option String)
    (v : Option Int) (d s : Option String) (h : DBInv db) :
    DBInv (putApiTickets db tid p v d s).2 := by
  unfold putApiTickets
  by_cases h1 : db.tickets.any (fun t => t.ticket_id == tid) = false
  · rw [if_pos h1]
    exact h
  · rw [if_neg h1]
    have hmemiff : ∀ x : String,
        (∃ t ∈ db.tickets.map (updateTicketFields tid p v d s), t.ticket_id = x) ↔
        (∃ t ∈ db.tickets, t.ticket_id = x) := by
      intro x
      constructor
      · rintro ⟨t, ht, he⟩
        obtain ⟨u, hu, rfl⟩ := List.mem_map.mp ht
        exact ⟨u, hu, by rw [← updateTicketFields_tid tid p v d s u]; exact he⟩
      · rintro ⟨t, ht, he⟩
        exact ⟨updateTicketFields tid p v d s t, List.mem_map_of_mem _ ht,
          by rw [updateTicketFields_tid]; exact he⟩
    refine ⟨?_, ?_, ?_, ?_, ?_, ?_⟩
    · show (db.tickets.map (updateTicketFields tid p v d s)).Pairwise
        (fun a b => a.ticket_id ≠ b.ticket_id)
      rw [List.pairwise_map]
      exact h.uniq.imp (by
        intro a b hab
        rw [updateTicketFields_tid, updateTicketFields_tid]
        exact hab)
    · intro t ht
      have ht2 : t ∈ db.tickets.map (updateTicketFields tid p v d s) := ht
      obtain ⟨u, hu, rfl⟩ := List.mem_map.mp ht2
      rw [updateTicketFields_tid]
      exact h.nonempty_ids u hu
    · intro a ha
      exact (hmemiff _).mpr (h.att_fk a ha)
    · intro c hc
      exact (hmemiff _).mpr (h.conv_fk c hc)
    · intro f hf
      exact (hmemiff _).mpr (h.find_fk f hf)
    · intro a ha
      exact (hmemiff _).mpr (h.audio_fk a ha)

/-- A `DELETE` matching no ticket row changes nothing. -/
theorem delete_changes_zero {db : DBState} {tid : String}
    (h : (db.tickets.filter (fun t => t.ticket_id == tid)).length = 0) :
    db.tickets.filter (fun t => !(t.ticket_id == tid)) = db.tickets := by
  have hnil : db.tickets.filter (fun t => t.ticket_id == tid) = [] :=
    List.length_eq_zero.mp h
  have hall : ∀ t ∈ db.tickets, ¬((t.ticket_id == tid) = true) := by
    intro t ht hq
    have : t ∈ db.tickets.filter (fun t => t.ticket_id == tid) :=
      List.mem_filter.mpr ⟨ht, hq⟩
    rw [hnil] at this
    simp at this
  refine List.filter_eq_self.mpr ?_
  intro t ht
  simpa using hall t ht

theorem dbInv_delete (db : DBState) (role tid : String) (h : DBInv db) :
    DBInv (deleteApiTickets db role tid).2 := by
  unfold deleteApiTickets
  by_cases h1 : role ≠ "admin"
  · rw [if_pos h1]
    exact h
  · rw [if_neg h1]
    by_cases h2 : (db.tickets.filter (fun t => t.ticket_id == tid)).length = 0
    · rw [if_pos h2]
      have hkeep := delete_changes_zero h2
      refine ⟨?_, ?_, ?_, ?_, ?_, ?_⟩ <;>
        simp only [hkeep]
      · exact h.uniq
      · exact h.nonempty_ids
      · intro a ha
        obtain ⟨t, ht, he⟩ := h.att_fk a ha
        exact ⟨t, ht, he⟩
      · intro c hc
        obtain ⟨t, ht, he⟩ := h.conv_fk c hc
        exact ⟨t, ht, he⟩
      · intro f hf
        obtain ⟨t, ht, he⟩ := h.find_fk f hf
        exact ⟨t, ht, he⟩
      · intro a ha
        obtain ⟨t, ht, he⟩ := h.audio_fk a ha
        exact ⟨t, ht, he⟩
    · rw [if_neg h2]
      have survive : ∀ x : String, x ≠ tid →
          (∃ t ∈ db.tickets, t.ticket_id = x) →
          ∃ t ∈ db.tickets.filter (fun t => !(t.ticket_id == tid)), t.ticket_id = x := by
        rintro x hx ⟨t, ht, rfl⟩
        refine ⟨t, List.mem_filter.mpr ⟨ht, ?_⟩, rfl⟩
        simpa using hx
      refine ⟨?_, ?_, ?_, ?_, ?_, ?_⟩
      · exact h.uniq.sublist (List.filter_sublist _)
      · intro t ht
        exact h.nonempty_ids t (List.mem_of_mem_filter ht)
      · intro a ha
        have hmem := List.mem_of_mem_filter ha
        have hne : a.ticket_id ≠ tid := by
          have := (List.mem_filter.mp ha).2
          simpa using this
        exact survive _ hne (h.att_fk a hmem)
      · intro c hc
        have hmem := List.mem_of_mem_filter hc
        have hne : c.ticket_id ≠ tid := by
          have := (List.mem_filter.mp hc).2
          simpa using this
        exact survive _ hne (h.conv_fk c hmem)
      · intro f hf
        have hmem := List.mem_of_mem_filter hf
        have hne : f.ticket_id ≠ tid := by
          have := (List.mem_filter.mp hf).2
          simpa using this
        exact survive _ hne (h.find_fk f hmem)
      · intro a ha
        have hmem := List.mem_of_mem_filter ha
        have hne : a.ticket_id ≠ tid := by
          have := (List.mem_filter.mp ha).2
          simpa using this
        exact survive _ hne (h.audio_fk a hmem)

theorem dbInv_addConversation (db : DBState) (tid role content : String)
    (ap tr : Option String) (h : DBInv db) :
    DBInv (postApiConversations db tid role content ap tr).2 := by
  unfold postApiConversations
  by_cases h1 : role = "" ∨ content = ""
  · rw [if_pos h1]
    exact h
  · rw [if_neg h1]
    by_cases h2 : db.tickets.any (fun t => t.ticket_id == tid) = false
    · rw [if_pos h2]
      exact h
    · have h2t : db.tickets.any (fun t => t.ticket_id == tid) = true := by
        simpa using h2
      rw [if_neg h2]
      refine ⟨h.uniq, h.nonempty_ids, h.att_fk, ?_, h.find_fk, h.audio_fk⟩
      intro c hc
      have hc2 : c ∈ db.conversations ++
          [⟨tid, role, content, orNullStr ap, orNullStr tr⟩] := hc
      rcases List.mem_append.mp hc2 with h3 | h3
      · exact h.conv_fk c h3
      · rw [List.mem_singleton] at h3
        subst h3
        exact any_tid_true h2t

theorem dbInv_addFinding (db : DBState) (tid name : String)
    (v : Option String) (conf : Option Rat) (src : Option String)
    (h : DBInv db) : DBInv (postApiFindings db tid name v conf src).2 := by
  unfold postApiFindings
  by_cases h1 : name = ""
  · rw [if_pos h1]
    exact h
  · rw [if_neg h1]
    by_cases h2 : db.tickets.any (fun t => t.ticket_id == tid) = false
    · rw [if_pos h2]
      exact h
    · have h2t : db.tickets.any (fun t => t.ticket_id == tid) = true := by
        simpa using h2
      rw [if_neg h2]
      refine ⟨h.uniq, h.nonempty_ids, h.att_fk, h.conv_fk, ?_, h.audio_fk⟩
      intro f hf
      have hf2 : f ∈ db.findings ++
          [⟨tid, name, orNullStr v, conf, (orNullStr src).getD "manual"⟩] := hf
      rcases List.mem_append.mp hf2 with h3 | h3
      · exact h.find_fk f h3
      · rw [List.mem_singleton] at h3
        subst h3
        exact any_tid_true h2t

theorem dbInv_uploadAudio (db : DBState) (tid : Option String)
    (fp : String) (ft : Option String) (dur : Option Rat) (h : DBInv db) :
    DBInv (postApiUploadAudio db tid fp ft dur).2 := by
  unfold postApiUploadAudio
  cases ht : orNullStr tid with
  | none => exact h
  | some t =>
    dsimp only
    by_cases h2 : db.tickets.any (fun x => x.ticket_id == t) = false
    · rw [if_pos h2]
      exact h
    · have h2t : db.tickets.any (fun x => x.ticket_id == t) = true := by
        simpa using h2
      rw [if_neg h2]
      refine ⟨h.uniq, h.nonempty_ids, h.att_fk, h.conv_fk, h.find_fk, ?_⟩
      intro a ha
      have ha2 : a ∈ db.audio_files ++ [⟨t, fp, ft, dur⟩] := ha
      rcases List.mem_append.mp ha2 with h3 | h3
      · exact h.audio_fk a h3
      · rw [List.mem_singleton] at h3
        subst h3
        exact any_tid_true h2t

theorem dbInv_transcribe (db : DBState) (tid : Option String)
    (fp ft : String) (ok : Bool) (tx : String) (h : DBInv db) :
    DBInv (postApiTranscribe db tid fp ft ok tx).2 := by
  unfold postApiTranscribe
  by_cases h0 : ok = false
  · rw [if_pos h0]
    exact h
  · rw [if_neg h0]
    cases ht : orNullStr tid with
    | none => exact h
    | some t =>
      dsimp only
      by_cases h2 : db.tickets.any (fun x => x.ticket_id == t) = false
      · rw [if_pos h2]
        exact h
      · have h2t : db.tickets.any (fun x => x.ticket_id == t) = true := by
          simpa using h2
        rw [if_neg h2]
        refine ⟨h.uniq, h.nonempty_ids, h.att_fk, ?_, h.find_fk, ?_⟩
        · intro c hc
          have hc2 : c ∈ db.conversations ++
              [⟨t, "user", tx, some fp, some tx⟩] := hc
          rcases List.mem_append.mp hc2 with h3 | h3
          · exact h.conv_fk c h3
          · rw [List.mem_singleton] at h3
            subst h3
            exact any_tid_true h2t
        · intro a ha
          have ha2 : a ∈ db.audio_files ++ [⟨t, fp, some ft, none⟩] := ha
          rcases List.mem_append.mp ha2 with h3 | h3
          · exact h.audio_fk a h3
          · rw [List.mem_singleton] at h3
            subst h3
            exact any_tid_true h2t

theorem dbInv_seedOne (db : DBState) (tid plate : String) (v : Int)
    (dmg st : String) (htid : tid ≠ "") (h : DBInv db) :
    DBInv (seedOne db tid plate v dmg st) := by
  unfold seedOne
  by_cases h1 : db.tickets.any (fun t => t.ticket_id == tid) = true
  · rw [if_pos h1]
    exact h
  · have h1f : db.tickets.any (fun t => t.ticket_id == tid) = false := by
      simpa using h1
    rw [if_neg h1]
    refine ⟨?_, ?_, ?_, ?_, ?_, ?_⟩
    · exact pairwise_tid_append_single h.uniq (any_tid_false h1f)
    · intro t ht
      have ht2 : t ∈ db.tickets ++
          [⟨db.nextRowid, tid, none, some plate, v, some dmg, st⟩] := ht
      rcases List.mem_append.mp ht2 with h3 | h3
      · exact h.nonempty_ids t h3
      · rw [List.mem_singleton] at h3
        subst h3
        exact htid
    · intro a ha
      obtain ⟨t, ht, he⟩ := h.att_fk a ha
      exact ⟨t, List.mem_append_left _ ht, he⟩
    · intro c hc
      obtain ⟨t, ht, he⟩ := h.conv_fk c hc
      exact ⟨t, List.mem_append_left _ ht, he⟩
    · intro f hf
      obtain ⟨t, ht, he⟩ := h.find_fk f hf
      exact ⟨t, List.mem_append_left _ ht, he⟩
    · intro a ha
      obtain ⟨t, ht, he⟩ := h.audio_fk a ha
      exact ⟨t, List.mem_append_left _ ht, he⟩

theorem dbInv_step (e : DBEvent) (db : DBState) (h : DBInv db) :
    DBInv (applyDB e db) := by
  cases e with
  | create r => exact dbInv_create db r h
  | update tid p v d s => exact dbInv_put db tid p v d s h
  | delete role tid => exact dbInv_delete db role tid h
  | addConversation tid r c a t => exact dbInv_addConversation db tid r c a t h
  | addFinding tid n v c s => exact dbInv_addFinding db tid n v c s h
  | uploadAudio tid fp ft d => exact dbInv_uploadAudio db tid fp ft d h
  | transcribe tid fp ft ok tx => exact dbInv_transcribe db tid fp ft ok tx h
  | seedSamples =>
    exact dbInv_seedOne _ _ _ _ _ _ (by decide)
      (dbInv_seedOne _ _ _ _ _ _ (by decide) h)

theorem dbInv_reachable {db : DBState} (h : Reachable db) : DBInv db := by
  induction h with
  | init => exact dbInv_empty
  | step e db _ ih => exact dbInv_step e db ih

/-! ## Claim C1 -/

/-- C1 counterexample: the claim's 409 conjunct fails.  Against a
database holding ticket "T-1", a second `POST /api/tickets` with
`ticket_id` "T-1" is answered 500 with message `Error creating ticket`,
not 409 `Ticket ID already exists`: the raised `SqliteError` carries
code `SQLITE_CONSTRAINT_UNIQUE`, the handler compares it strictly
against `SQLITE_CONSTRAINT`, and so its 409 branch never fires.  No
ticket row is inserted either way. -/
theorem sqlite_ticket_id_unique_cex :
    (postApiTickets (applyDB (.create ⟨some "T-1", none, none, none, none, []⟩) emptyDB)
        ⟨some "T-1", none, none, none, none, []⟩).1
      = ⟨500, false, "Error creating ticket"⟩ ∧
    (postApiTickets (applyDB (.create ⟨some "T-1", none, none, none, none, []⟩) emptyDB)
        ⟨some "T-1", none, none, none, none, []⟩).1.status ≠ 409 ∧
    (postApiTickets (applyDB (.create ⟨some "T-1", none, none, none, none, []⟩) emptyDB)
        ⟨some "T-1", none, none, none, none, []⟩).2
      = applyDB (.create ⟨some "T-1", none, none, none, none, []⟩) emptyDB :=
  ⟨rfl, by decide, rfl⟩

/-- C1 (amended): in the SQLite backend, ticket ids are unique: at
every reachable database state no two rows of the `tickets` table
share a `ticket_id`, and a `POST /api/tickets` whose `ticket_id`
equals that of an existing ticket inserts no new ticket row and leaves
the database unchanged; it is answered HTTP 500 with message `Error
creating ticket` rather than the handler's intended 409 `Ticket ID
already exists`, whose guard compares `error.code` against
`SQLITE_CONSTRAINT` while better-sqlite3 reports
`SQLITE_CONSTRAINT_UNIQUE`. -/
theorem sqlite_ticket_id_unique (db : DBState) (h : Reachable db) :
    ticketIdsUnique db ∧
    ∀ r : CreateTicketReq, ∀ tid : String, r.ticket_id = some tid →
      hasTicket db tid →
      (postApiTickets db r).1 = ⟨500, false, "Error creating ticket"⟩ ∧
      (postApiTickets db r).2 = db := by
  have inv := dbInv_reachable h
  refine ⟨inv.uniq, ?_⟩
  intro r tid hr hex
  obtain ⟨t, ht, htid⟩ := hex
  have hne : tid ≠ "" := htid ▸ inv.nonempty_ids t ht
  have h1 : ¬ (strTruthy r.ticket_id = false) := by
    rw [hr]
    simp [strTruthy, hne]
  have hgetD : r.ticket_id.getD "" = tid := by rw [hr]; rfl
  have hany : db.tickets.any (fun x => x.ticket_id == r.ticket_id.getD "") = true := by
    rw [hgetD]
    exact List.any_eq_true.mpr ⟨t, ht, by simp [htid]⟩
  unfold postApiTickets
  rw [if_neg h1, if_pos hany]
  exact ⟨rfl, rfl⟩

/-- Witness for the amended C1: after creating ticket "T-2" from the
empty database, a second `POST /api/tickets` with the same `ticket_id`
answers 500 `Error creating ticket` and leaves the state unchanged. -/
theorem sqlite_ticket_id_unique_witness :
    (postApiTickets (applyDB (.create ⟨some "T-2", none, none, none, none, []⟩) emptyDB)
        ⟨some "T-2", none, none, none, none, []⟩).1
      = ⟨500, false, "Error creating ticket"⟩ :=
  ((sqlite_ticket_id_unique _ (Reachable.step _ _ Reachable.init)).2
    ⟨some "T-2", none, none, none, none, []⟩ "T-2" rfl
    ⟨⟨0, "T-2", none, none, 1, none, "open"⟩, by decide, rfl⟩).1

/-! ## Claim C5 -/

/-- C5: in the SQLite backend every attachments row references an
existing ticket, and an admin `DELETE /api/tickets/:ticketId` removes
the ticket together with all of its attachments, conversations,
findings and audio rows, while a delete of a nonexistent ticket answers
404 with no state change. -/
theorem sqlite_attachments_fk_delete (db : DBState) (h : Reachable db) :
    (∀ a ∈ db.attachments, ∃ t ∈ db.tickets, t.ticket_id = a.ticket_id) ∧
    (∀ tid, ¬ hasTicket db tid →
      (deleteApiTickets db "admin" tid).1 = ⟨404, false, "Ticket not found"⟩ ∧
      (deleteApiTickets db "admin" tid).2 = db) ∧
    (∀ tid, hasTicket db tid →
      (deleteApiTickets db "admin" tid).1 = ⟨200, true, "Ticket deleted successfully"⟩ ∧
      (deleteApiTickets db "admin" tid).2 =
        { db with
          tickets := db.tickets.filter (fun t => !(t.ticket_id == tid))
          attachments := db.attachments.filter (fun a => !(a.ticket_id == tid))
          conversations := db.conversations.filter (fun c => !(c.ticket_id == tid))
          findings := db.findings.filter (fun f => !(f.ticket_id == tid))
          audio_files := db.audio_files.filter (fun a => !(a.ticket_id == tid)) }) := by
  have inv := dbInv_reachable h
  refine ⟨inv.att_fk, ?_, ?_⟩
  · intro tid hno
    have hz : (db.tickets.filter (fun t => t.ticket_id == tid)).length = 0 := by
      have : db.tickets.filter (fun t => t.ticket_id == tid) = [] := by
        refine List.eq_nil_iff_forall_not_mem.mpr ?_
        intro t ht
        rcases List.mem_filter.mp ht with ⟨hmem, hq⟩
        exact hno ⟨t, hmem, by simpa using hq⟩
      rw [this]
      rfl
    have hkeep := delete_changes_zero hz
    unfold deleteApiTickets
    rw [if_neg (by simp), if_pos hz]
    refine ⟨rfl, ?_⟩
    rw [hkeep]
  · intro tid hex
    obtain ⟨t, ht, htid⟩ := hex
    have hz : ¬ (db.tickets.filter (fun x => x.ticket_id == tid)).length = 0 := by
      have hmem : t ∈ db.tickets.filter (fun x => x.ticket_id == tid) :=
        List.mem_filter.mpr ⟨ht, by simp [htid]⟩
      intro hlen
      rw [List.length_eq_zero.mp hlen] at hmem
      simp at hmem
    unfold deleteApiTickets
    rw [if_neg (by simp), if_neg hz]
    exact ⟨rfl, rfl⟩

/-! ## Claims C2 and C9: JSON-file conversation server -/

theorem replaceFirst_length (db : List JTicket) (tid : String) (u : JTicket) :
    (replaceFirst db tid u).length = db.length := by
  induction db with
  | nil => rfl
  | cons t ts ih =>
    unfold replaceFirst
    by_cases h : (t.id == tid) = true
    · rw [if_pos h]
      rfl
    · rw [if_neg h]
      simpa using ih

theorem find?_fresh_append (l : List JTicket) (u : JTicket) (tid : String)
    (h : ∀ t ∈ l, t.id ≠ tid) (hu : (u.id == tid) = true) :
    (l ++ [u]).find? (fun t => t.id == tid) = some u := by
  induction l with
  | nil => simp [List.find?, hu]
  | cons a l ih =>
    have ha : ¬ ((a.id == tid) = true) := by
      simpa using h a (List.mem_cons_self a l)
    have ihh := ih (fun t ht => h t (List.mem_cons_of_mem a ht))
    simpa [List.find?, ha] using ihh

/-- C2 counterexample: the round-trip fails as literally stated.  With a
falsy posted `transcript` (the empty string) the POST succeeds, but the
ticket returned by the subsequent GET carries no `transcript` field at
all (`none`) rather than the posted value. -/
theorem jsonServer_roundtrip_cex :
    (postTickets [] 1 (some "T-1") (some (JsValue.str ""))
        (some (JsValue.obj [])) (some (JsValue.str "d"))).1.success = true ∧
    ((getTicket (postTickets [] 1 (some "T-1") (some (JsValue.str ""))
        (some (JsValue.obj [])) (some (JsValue.str "d"))).2 "T-1").ticket.map
        JTicket.transcript) = some none ∧
    (getTicket (postTickets [] 1 (some "T-1") (some (JsValue.str ""))
        (some (JsValue.obj [])) (some (JsValue.str "d"))).2 "T-1").success = true :=
  ⟨rfl, rfl, rfl⟩

/-- C2 (amended): for a fresh truthy ticket id and truthy posted
`transcript`, `extracted_data` and `description`, a successful
`POST /tickets` followed by `GET /tickets/:id` returns `success:true`
and a ticket with exactly the posted id and field values. -/
theorem jsonServer_roundtrip (db : List JTicket) (now : Nat) (tid : String)
    (tr ex de : JsValue)
    (hfresh : ∀ t ∈ db, t.id ≠ tid) (htid : tid ≠ "")
    (htr : tr.truthy = true) (hex : ex.truthy = true) (hde : de.truthy = true) :
    (postTickets db now (some tid) (some tr) (some ex) (some de)).1.success = true ∧
    getTicket (postTickets db now (some tid) (some tr) (some ex) (some de)).2 tid
      = ⟨200, true, none, some ⟨tid, now, now, [], some tr, some ex, some de⟩⟩ := by
  have h1 : ¬ (strTruthy (some tid) = false) := by
    simp [strTruthy, htid]
  have hfind : db.find? (fun t => t.id == (some tid : Option String).getD "") = none := by
    refine List.find?_eq_none.mpr ?_
    intro t ht
    simpa using hfresh t ht
  have hupd : applyTicketUpdate (newJTicket ((some tid : Option String).getD "") now) now
      (some tr) (some ex) (some de) = ⟨tid, now, now, [], some tr, some ex, some de⟩ := by
    simp [applyTicketUpdate, newJTicket, optTruthy, htr, hex, hde]
  unfold postTickets
  rw [if_neg h1, hfind]
  refine ⟨rfl, ?_⟩
  unfold getTicket
  rw [hupd]
  rw [find?_fresh_append db _ tid hfresh (by simp)]

/-- Witness for the amended C2 at concrete values. -/
theorem jsonServer_roundtrip_witness :
    getTicket (postTickets [] 5 (some "T-9") (some (JsValue.arr []))
        (some (JsValue.obj [])) (some (JsValue.str "desc"))).2 "T-9"
      = ⟨200, true, none, some ⟨"T-9", 5, 5, [], some (JsValue.arr []),
          some (JsValue.obj []), some (JsValue.str "desc")⟩⟩ :=
  (jsonServer_roundtrip [] 5 "T-9" (JsValue.arr []) (JsValue.obj [])
    (JsValue.str "desc") (by simp) (by decide) rfl rfl rfl).2

/-- C9 counterexample: the claim's contrast clause — that the SQLite
backend rejects a duplicate `ticket_id` with 409 — fails.  Against a
database holding ticket "T-7", a duplicate `POST /api/tickets` is
answered 500 `Error creating ticket` (better-sqlite3 raises with code
`SQLITE_CONSTRAINT_UNIQUE`, which the handler's strict comparison
against `SQLITE_CONSTRAINT` misses), though the tickets table is
indeed left unchanged. -/
theorem jsonServer_upsert_cex :
    (postApiTickets (applyDB (.create ⟨some "T-7", none, none, none, none, []⟩) emptyDB)
        ⟨some "T-7", none, none, none, none, []⟩).1.status = 500 ∧
    (postApiTickets (applyDB (.create ⟨some "T-7", none, none, none, none, []⟩) emptyDB)
        ⟨some "T-7", none, none, none, none, []⟩).1.status ≠ 409 ∧
    (postApiTickets (applyDB (.create ⟨some "T-7", none, none, none, none, []⟩) emptyDB)
        ⟨some "T-7", none, none, none, none, []⟩).1.message
      = "Error creating ticket" :=
  ⟨rfl, by decide, rfl⟩

/-- C9 (amended): the conversation-server `POST /tickets` is an upsert.
When a ticket with the posted id exists, no entry is added (the list
keeps its length), the stored object is updated in place with
`createdAt` and `uploads` preserved, and the three data fields change
only if they were present in the request.  In contrast, the SQLite
backend rejects a duplicate `ticket_id` — the INSERT raises and its
tickets table is unchanged — answering 500 `Error creating ticket`
(not 409, since the handler's `SQLITE_CONSTRAINT` comparison misses
better-sqlite3's `SQLITE_CONSTRAINT_UNIQUE` code). -/
theorem jsonServer_upsert (db : List JTicket) (now : Nat) (tid : String) (t0 : JTicket)
    (hfind : db.find? (fun t => t.id == tid) = some t0) (htid : tid ≠ "")
    (tr ex de : Option JsValue) :
    (postTickets db now (some tid) tr ex de).2.length = db.length ∧
    (postTickets db now (some tid) tr ex de).1.success = true ∧
    (postTickets db now (some tid) tr ex de).1.ticket =
      some (applyTicketUpdate t0 now tr ex de) ∧
    (applyTicketUpdate t0 now tr ex de).createdAt = t0.createdAt ∧
    (applyTicketUpdate t0 now tr ex de).uploads = t0.uploads ∧
    ((applyTicketUpdate t0 now tr ex de).transcript ≠ t0.transcript →
      ∃ v, tr = some v) ∧
    ((applyTicketUpdate t0 now tr ex de).extracted_data ≠ t0.extracted_data →
      ∃ v, ex = some v) ∧
    ((applyTicketUpdate t0 now tr ex de).description ≠ t0.description →
      ∃ v, de = some v) ∧
    (∀ sdb : DBState, Reachable sdb → hasTicket sdb tid →
      ∀ r : CreateTicketReq, r.ticket_id = some tid →
        (postApiTickets sdb r).1 = ⟨500, false, "Error creating ticket"⟩ ∧
        (postApiTickets sdb r).2.tickets = sdb.tickets) := by
  have h1 : ¬ (strTruthy (some tid) = false) := by
    simp [strTruthy, htid]
  have hfind2 : db.find? (fun t => t.id == (some tid : Option String).getD "") = some t0 :=
    hfind
  refine ⟨?_, ?_, ?_, rfl, rfl, ?_, ?_, ?_, ?_⟩
  · unfold postTickets
    rw [if_neg h1, hfind2]
    exact replaceFirst_length db _ _
  · unfold postTickets
    rw [if_neg h1, hfind2]
  · unfold postTickets
    rw [if_neg h1, hfind2]
  · intro hne
    cases tr with
    | none => exact (hne (by simp [applyTicketUpdate, optTruthy])).elim
    | some v => exact ⟨v, rfl⟩
  · intro hne
    cases ex with
    | none => exact (hne (by simp [applyTicketUpdate, optTruthy])).elim
    | some v => exact ⟨v, rfl⟩
  · intro hne
    cases de with
    | none => exact (hne (by simp [applyTicketUpdate, optTruthy])).elim
    | some v => exact ⟨v, rfl⟩
  · intro sdb hreach hex r hr
    have inv := dbInv_reachable hreach
    obtain ⟨t, ht, htideq⟩ := hex
    have hne : tid ≠ "" := htid
    have hb1 : ¬ (strTruthy r.ticket_id = false) := by
      rw [hr]
      simp [strTruthy, hne]
    have hgetD : r.ticket_id.getD "" = tid := by rw [hr]; rfl
    have hany : sdb.tickets.any (fun x => x.ticket_id == r.ticket_id.getD "") = true := by
      rw [hgetD]
      exact List.any_eq_true.mpr ⟨t, ht, by simp [htideq]⟩
    unfold postApiTickets
    rw [if_neg hb1, if_pos hany]
    exact ⟨rfl, rfl⟩

/-- Witness for C9 at a concrete stored ticket. -/
theorem jsonServer_upsert_witness :
    (postTickets [⟨"T-1", 3, 3, [], none, none, none⟩] 7 (some "T-1")
        none (some (JsValue.str "e")) none).2.length = 1 ∧
    (applyTicketUpdate (⟨"T-1", 3, 3, [], none, none, none⟩ : JTicket) 7
        none (some (JsValue.str "e")) none).createdAt = 3 :=
  ⟨(jsonServer_upsert [⟨"T-1", 3, 3, [], none, none, none⟩] 7 "T-1"
      ⟨"T-1", 3, 3, [], none, none, none⟩ rfl (by decide)
      none (some (JsValue.str "e")) none).1,
   (jsonServer_upsert [⟨"T-1", 3, 3, [], none, none, none⟩] 7 "T-1"
      ⟨"T-1", 3, 3, [], none, none, none⟩ rfl (by decide)
      none (some (JsValue.str "e")) none).2.2.2.1⟩

/-- Witness for C5: a database with ticket "T-1" and one attachment;
deleting absent "T-9" answers 404 and deleting "T-1" answers 200. -/
theorem sqlite_attachments_fk_delete_witness :
    (deleteApiTickets
        (applyDB (.create ⟨some "T-1", none, none, none, none,
          [⟨some "f.jpg", none, some "/uploads/f.jpg", none, none, none, none, some 3⟩]⟩) emptyDB)
        "admin" "T-9").1 = ⟨404, false, "Ticket not found"⟩ ∧
    (deleteApiTickets
        (applyDB (.create ⟨some "T-1", none, none, none, none,
          [⟨some "f.jpg", none, some "/uploads/f.jpg", none, none, none, none, some 3⟩]⟩) emptyDB)
        "admin" "T-1").1 = ⟨200, true, "Ticket deleted successfully"⟩ :=
  ⟨((sqlite_attachments_fk_delete _ (Reachable.step _ _ Reachable.init)).2.1
      "T-9" (by unfold hasTicket; decide)).1,
   ((sqlite_attachments_fk_delete _ (Reachable.step _ _ Reachable.init)).2.2
      "T-1" ⟨⟨0, "T-1", none, none, 1, none, "open"⟩, by decide, rfl⟩).1⟩

/-! ## Claim C3: `parseLLMState` -/

theorem isPrefixOf_drop {p l : List Char} (h : p.isPrefixOf l = true) :
    l = p ++ l.drop p.length := by
  obtain ⟨t, ht⟩ := List.isPrefixOf_iff_prefix.mp h
  subst ht
  rw [List.drop_left]

theorem isPrefixOf_append_self (p r : List Char) : p.isPrefixOf (p ++ r) = true :=
  List.isPrefixOf_iff_prefix.mpr ⟨r, rfl⟩

theorem dropUntilBrace_append {pre : List Char} (h : '\x7b' ∉ pre)
    (rest : List Char) :
    dropUntilBrace (pre ++ '\x7b' :: rest) = some rest := by
  induction pre with
  | nil =>
    show dropUntilBrace ('\x7b' :: rest) = some rest
    rw [dropUntilBrace]
    rw [if_pos rfl]
  | cons c t ih =>
    have hc : ¬ (c = '\x7b') := fun hcc => h (hcc ▸ List.mem_cons_self c t)
    have ht : '\x7b' ∉ t := fun hm => h (List.mem_cons_of_mem c hm)
    show dropUntilBrace (c :: (t ++ '\x7b' :: rest)) = some rest
    rw [dropUntilBrace]
    rw [if_neg hc]
    exact ih ht

theorem splitAtPhase_sound {l a b : List Char}
    (h : splitAtPhase l = some (a, b)) : l = a ++ phasePat ++ b := by
  induction l generalizing a b with
  | nil => simp [splitAtPhase] at h
  | cons c t ih =>
    rw [splitAtPhase] at h
    by_cases hp : phasePat.isPrefixOf (c :: t) = true
    · rw [if_pos hp] at h
      simp only [Option.some.injEq, Prod.mk.injEq] at h
      obtain ⟨h1, h2⟩ := h
      subst h1
      subst h2
      have hdp := isPrefixOf_drop hp
      have h7 : phasePat.length = 7 := rfl
      rw [h7] at hdp
      simpa using hdp
    · rw [if_neg hp] at h
      cases hsp : splitAtPhase t with
      | none => rw [hsp] at h; simp at h
      | some q =>
        rw [hsp] at h
        simp only [Option.map_some', Option.some.injEq] at h
        obtain ⟨h1, h2⟩ := Prod.mk.inj h.symm
        subst h1
        subst h2
        have ht := ih hsp
        simp [ht]

theorem splitAtPhase_minimal {l a b a2 b2 : List Char}
    (h : splitAtPhase l = some (a, b)) (hdec : l = a2 ++ phasePat ++ b2) :
    a.length ≤ a2.length := by
  induction l generalizing a b a2 b2 with
  | nil => simp [splitAtPhase] at h
  | cons c t ih =>
    rw [splitAtPhase] at h
    by_cases hp : phasePat.isPrefixOf (c :: t) = true
    · rw [if_pos hp] at h
      simp only [Option.some.injEq, Prod.mk.injEq] at h
      obtain ⟨h1, _⟩ := h
      subst h1
      simp
    · rw [if_neg hp] at h
      cases a2 with
      | nil =>
        exfalso
        apply hp
        rw [show c :: t = phasePat ++ b2 from by simpa using hdec]
        exact isPrefixOf_append_self _ _
      | cons d a2t =>
        have hcd : c = d ∧ t = a2t ++ phasePat ++ b2 := by
          constructor
          · have := congrArg (fun l => l.headI) hdec
            simpa using this
          · have := congrArg (fun l => l.tail) hdec
            simpa using this
        obtain ⟨rfl, ht⟩ := hcd
        cases hsp : splitAtPhase t with
        | none => rw [hsp] at h; simp at h
        | some q =>
          rw [hsp] at h
          simp only [Option.map_some', Option.some.injEq] at h
          obtain ⟨h1, _⟩ := Prod.mk.inj h.symm
          subst h1
          simpa using Nat.succ_le_succ (ih hsp ht)

theorem splitAtPhase_isSome {l a2 b2 : List Char}
    (hdec : l = a2 ++ phasePat ++ b2) : (splitAtPhase l).isSome = true := by
  induction a2 generalizing l with
  | nil =>
    have hl : l = '\x22' :: (['p', 'h', 'a', 's', 'e', '\x22'] ++ b2) := by
      simpa [phasePat] using hdec
    rw [hl]
    rw [splitAtPhase]
    have hcond : phasePat.isPrefixOf ('\x22' :: (['p', 'h', 'a', 's', 'e', '\x22'] ++ b2))
        = true := isPrefixOf_append_self phasePat b2
    rw [if_pos hcond]
    rfl
  | cons d a2t ih =>
    have hl : l = d :: (a2t ++ phasePat ++ b2) := by simpa using hdec
    rw [hl]
    rw [splitAtPhase]
    by_cases hp : phasePat.isPrefixOf (d :: (a2t ++ phasePat ++ b2)) = true
    · rw [if_pos hp]
      rfl
    · rw [if_neg hp]
      have hih := ih rfl
      obtain ⟨p, hp3⟩ := Option.isSome_iff_exists.mp hih
      rw [hp3]
      rfl

theorem dropWhile_append_all {p : Char → Bool} {l1 : List Char}
    (h : ∀ x ∈ l1, p x = true) (l2 : List Char) :
    (l1 ++ l2).dropWhile p = l2.dropWhile p := by
  induction l1 with
  | nil => rfl
  | cons c t ih =>
    have hc : p c = true := h c (List.mem_cons_self c t)
    have ht : ∀ x ∈ t, p x = true := fun x hx => h x (List.mem_cons_of_mem c hx)
    show ((c :: (t ++ l2)).dropWhile p) = l2.dropWhile p
    rw [List.dropWhile_cons_of_pos hc]
    exact ih ht

theorem takeThroughLastBrace_append {post : List Char} (h : '\x7d' ∉ post)
    (b : List Char) :
    takeThroughLastBrace (b ++ '\x7d' :: post) = some (b ++ ['\x7d']) := by
  unfold takeThroughLastBrace
  have hrev : (b ++ '\x7d' :: post).reverse = post.reverse ++ '\x7d' :: b.reverse := by
    simp
  rw [hrev]
  have hall : ∀ x ∈ post.reverse, (x != '\x7d') = true := by
    intro x hx
    have hne : x ≠ '\x7d' := fun he => h (he ▸ List.mem_reverse.mp hx)
    simpa using hne
  rw [dropWhile_append_all hall]
  rw [List.dropWhile_cons_of_neg (by simp)]
  simp

/-- C3 counterexample: the message below contains the JSON object
`\x7b"phase":"done"\x7d` (it is even a suffix), yet `parseLLMState`
returns `null`: the greedy regex match spans from the earlier brace of
`\x7bx\x7d`, and that whole span is not valid JSON. -/
theorem parseLLMState_cex :
    parseLLMState "\x7bx\x7d \x7b\x22phase\x22:\x22done\x22\x7d" = none ∧
    parseJson "\x7b\x22phase\x22:\x22done\x22\x7d"
      = some (JsValue.obj [("phase", JsValue.str "done")]) ∧
    ("\x7bx\x7d \x7b\x22phase\x22:\x22done\x22\x7d" : String).data
      = "\x7bx\x7d ".data ++ "\x7b\x22phase\x22:\x22done\x22\x7d".data :=
  ⟨rfl, rfl, rfl⟩

/-- C3 (amended): `parseLLMState` parses the greedy span from the first
opening brace to the last closing brace after a `"phase"` occurrence.
In particular, when the message contains exactly one state block — no
opening brace before it and no closing brace after it — and the block
(which contains `"phase"`) parses as JSON, the function returns that
parsed object; it returns `null` when no such span exists or the span
fails to parse. -/
theorem parseLLMState_block (pre mid post : List Char) (v : JsValue)
    (h1 : '\x7b' ∉ pre) (h2 : '\x7d' ∉ post)
    (h3 : ∃ a b, mid = a ++ phasePat ++ b)
    (h4 : parseJson (String.mk ('\x7b' :: (mid ++ ['\x7d']))) = some v) :
    parseLLMState (String.mk (pre ++ '\x7b' :: (mid ++ '\x7d' :: post))) = some v := by
  obtain ⟨a, b, hmid⟩ := h3
  show (match extractStateSpan (pre ++ '\x7b' :: (mid ++ '\x7d' :: post)) with
    | none => none
    | some s => parseJson (String.mk s)) = some v
  unfold extractStateSpan
  rw [dropUntilBrace_append h1]
  dsimp only
  have hdect : mid ++ '\x7d' :: post = a ++ phasePat ++ (b ++ '\x7d' :: post) := by
    simp [hmid]
  have hsome := splitAtPhase_isSome hdect
  cases hsp : splitAtPhase (mid ++ '\x7d' :: post) with
  | none => rw [hsp] at hsome; simp at hsome
  | some p =>
    obtain ⟨a0, b0⟩ := p
    have hsound := splitAtPhase_sound hsp
    have hmin : a0.length ≤ a.length := splitAtPhase_minimal hsp hdect
    have hk : a0.length + 7 ≤ mid.length := by
      have hlen : mid.length = a.length + 7 + b.length := by
        rw [hmid, List.length_append, List.length_append]
        rfl
      omega
    have hklen : (a0 ++ phasePat).length = a0.length + 7 := by
      simp [phasePat]
    have he2 : (a0 ++ phasePat) ++ b0 = mid ++ '\x7d' :: post := by
      simpa [List.append_assoc] using hsound.symm
    have htake : a0 ++ phasePat = mid.take (a0.length + 7) := by
      have e1 : ((a0 ++ phasePat) ++ b0).take (a0 ++ phasePat).length
          = a0 ++ phasePat := List.take_left _ _
      rw [he2, hklen] at e1
      rw [← e1]
      exact List.take_append_of_le_length hk
    have hdrop : b0 = mid.drop (a0.length + 7) ++ '\x7d' :: post := by
      have e1 : ((a0 ++ phasePat) ++ b0).drop (a0 ++ phasePat).length = b0 :=
        List.drop_left _ _
      rw [he2, hklen] at e1
      rw [← e1]
      exact List.drop_append_of_le_length hk
    have hmid2 : mid = a0 ++ phasePat ++ mid.drop (a0.length + 7) := by
      conv_lhs => rw [← List.take_append_drop (a0.length + 7) mid]
      rw [← htake]
    dsimp only
    rw [hdrop, takeThroughLastBrace_append h2]
    dsimp only
    have hspan : '\x7b' :: (a0 ++ phasePat ++ (mid.drop (a0.length + 7) ++ ['\x7d']))
        = '\x7b' :: (mid ++ ['\x7d']) := by
      conv_rhs => rw [hmid2]
      simp [List.append_assoc]
    rw [hspan]
    exact h4

/-- Witness for the amended C3: a message with one state block
surrounded by brace-free text parses to the block object. -/
theorem parseLLMState_block_witness :
    parseLLMState (String.mk ("Done! ".data ++ '\x7b' ::
      ("\x22phase\x22:\x22done\x22".data ++ '\x7d' :: " end".data)))
      = some (JsValue.obj [("phase", JsValue.str "done")]) :=
  parseLLMState_block "Done! ".data "\x22phase\x22:\x22done\x22".data " end".data
    (JsValue.obj [("phase", JsValue.str "done")])
    (by decide) (by decide)
    ⟨[], ":\x22done\x22".data, by decide⟩ rfl

/-! ## Claim C4: upload gating and attach-button visibility -/

/-- C4 counterexample: the claim fails as stated on two counts.  For a
non-image file in a non-upload phase, `handleImageUpload` raises the
invalid-image alert (it returns before the phase check), not the
wait-for-instructions message with the input reset.  And
`updateUIForPhase` in phase `done` leaves a previously shown attach
button visible, so the button is not shown _exactly_ in the four
upload phases. -/
theorem uploadGating_cex :
    handleImageUpload "greeting" (some ⟨"application/pdf"⟩)
      = UploadAction.alertInvalidImage ∧
    (updateUIForPhase "en" "done" ⟨true, "p"⟩).attachShown = true :=
  ⟨rfl, rfl⟩

/-- C4 (amended): a backend upload happens only in the four upload
phases; for an image file in any other phase `handleImageUpload` shows
the wait message and resets the input without uploading (a non-image
file is rejected by an alert before the phase check); and
`updateUIForPhase` shows the attach button in the four upload phases
and leaves its visibility unchanged in every other phase. -/
theorem uploadGating (phase : String) (f : JsFile) (lang : String) (ui : ChatUI) :
    (∀ t, handleImageUpload phase (some f) = UploadAction.uploadTo t →
      phase ∈ uploadPhases) ∧
    (("image/".data.isPrefixOf f.type.data) = true → phase ∉ uploadPhases →
      handleImageUpload phase (some f) = UploadAction.waitForInstructions) ∧
    (phase ∈ uploadPhases → (updateUIForPhase lang phase ui).attachShown = true) ∧
    (phase ∉ uploadPhases →
      (updateUIForPhase lang phase ui).attachShown = ui.attachShown) := by
  refine ⟨?_, ?_, ?_, ?_⟩
  · intro t ht
    unfold handleImageUpload at ht
    dsimp only at ht
    by_cases h1 : ("image/".data.isPrefixOf f.type.data) = false
    · rw [if_pos h1] at ht
      simp at ht
    · rw [if_neg h1] at ht
      by_cases h2 : phase ∉ uploadPhases
      · rw [if_pos h2] at ht
        simp at ht
      · simpa using h2
  · intro h1 h2
    unfold handleImageUpload
    dsimp only
    rw [if_neg (by simp [h1]), if_pos h2]
  · intro h
    unfold updateUIForPhase
    rw [if_pos h]
  · intro h
    unfold updateUIForPhase
    rw [if_neg h]

/-- Witness for the amended C4 at concrete inputs. -/
theorem uploadGating_witness :
    handleImageUpload "greeting" (some ⟨"image/png"⟩)
      = UploadAction.waitForInstructions ∧
    (updateUIForPhase "en" "id_card" ⟨false, "p"⟩).attachShown = true ∧
    (updateUIForPhase "en" "done" ⟨false, "p"⟩).attachShown = false :=
  ⟨(uploadGating "greeting" ⟨"image/png"⟩ "en" ⟨false, "p"⟩).2.1 (by decide)
      (by decide),
   (uploadGating "id_card" ⟨"image/png"⟩ "en" ⟨false, "p"⟩).2.2.1 (by decide),
   (uploadGating "done" ⟨"image/png"⟩ "en" ⟨false, "p"⟩).2.2.2 (by decide)⟩

/-! ## Claim C6: upload validation -/

theorem multerProcess_ok_sound (files : List IncomingFile) :
    ∀ (k : Nat) (gs : List IncomingFile), multerProcess k files = .ok gs →
    ∀ g ∈ gs, g.mimetype ∈ allowedUploadTypes ∧ g.size ≤ maxFileSize := by
  induction files with
  | nil =>
    intro k gs h g hg
    unfold multerProcess at h
    simp only [MulterOutcome.ok.injEq] at h
    subst h
    simp at hg
  | cons f fs ih =>
    intro k gs h g hg
    unfold multerProcess at h
    by_cases h0 : k = 0
    · rw [if_pos h0] at h
      simp at h
    · rw [if_neg h0] at h
      by_cases h1 : f.mimetype ∈ allowedUploadTypes
      · rw [if_pos h1] at h
        by_cases h2 : f.size > maxFileSize
        · rw [if_pos h2] at h
          simp at h
        · rw [if_neg h2] at h
          cases hrec : multerProcess (k - 1) fs with
          | ok gs2 =>
            rw [hrec] at h
            simp only [MulterOutcome.ok.injEq] at h
            subst h
            rcases List.mem_cons.mp hg with rfl | hg2
            · exact ⟨h1, by omega⟩
            · exact ih (k - 1) gs2 hrec g hg2
          | invalidType => rw [hrec] at h; simp at h
          | tooLarge => rw [hrec] at h; simp at h
          | tooMany => rw [hrec] at h; simp at h
      · rw [if_neg h1] at h
        simp at h

/-- C6: `POST /upload` stores and returns a file entry only for files
whose MIME type is one of the six allowed types and whose size is at
most 10MB; a single file of another MIME type is rejected with the
`Invalid file type` error (status 500 via the generic error branch,
since the filter error is not a MulterError) and no files entry; a
single file over 10MB is answered 400 with message `File too large.
Maximum size is 10MB` and no files entry; and a single valid file is
stored and returned. -/
theorem uploadValidation :
    (∀ (files : List IncomingFile) (type tid : Option String)
      (jdb : List JTicket) (now : Nat) (l : List SavedFile) (sf : SavedFile),
      (postUpload files type tid jdb now).1.files = some l → sf ∈ l →
      sf.mimetype ∈ allowedUploadTypes ∧ sf.size ≤ maxFileSize) ∧
    (∀ (f : IncomingFile) (type tid : Option String) (jdb : List JTicket)
      (now : Nat), f.mimetype ∉ allowedUploadTypes →
      (postUpload [f] type tid jdb now).1
        = ⟨500, false, "Invalid file type. Only images and PDF files are allowed.",
            none⟩) ∧
    (∀ (f : IncomingFile) (type tid : Option String) (jdb : List JTicket)
      (now : Nat), f.mimetype ∈ allowedUploadTypes → f.size > maxFileSize →
      (postUpload [f] type tid jdb now).1
        = ⟨400, false, "File too large. Maximum size is 10MB", none⟩) ∧
    (∀ (f : IncomingFile) (type tid : Option String) (jdb : List JTicket)
      (now : Nat), f.mimetype ∈ allowedUploadTypes → f.size ≤ maxFileSize →
      (postUpload [f] type tid jdb now).1.success = true ∧
      (postUpload [f] type tid jdb now).1.files
        = some [savedFileOf
            (if strTruthy type then type.getD "" else "accident_photos")
            (typeFolder (if strTruthy type then type.getD "" else "accident_photos"))
            f]) := by
  refine ⟨?_, ?_, ?_, ?_⟩
  · intro files type tid jdb now l sf hl hsf
    unfold postUpload at hl
    cases hm : multerProcess 10 files with
    | ok gs =>
      cases gs with
      | nil => rw [hm] at hl; simp at hl
      | cons g gs2 =>
        rw [hm] at hl
        simp only [Option.some.injEq] at hl
        subst hl
        obtain ⟨g2, hg2, rfl⟩ := List.mem_map.mp hsf
        have := multerProcess_ok_sound files 10 (g :: gs2) hm g2 hg2
        exact ⟨this.1, this.2⟩
    | invalidType => rw [hm] at hl; simp at hl
    | tooLarge => rw [hm] at hl; simp at hl
    | tooMany => rw [hm] at hl; simp at hl
  · intro f type tid jdb now hmem
    have hm : multerProcess 10 [f] = .invalidType := by
      unfold multerProcess
      rw [if_neg (by decide), if_neg hmem]
    unfold postUpload
    rw [hm]
  · intro f type tid jdb now hmem hsize
    have hm : multerProcess 10 [f] = .tooLarge := by
      unfold multerProcess
      rw [if_neg (by decide), if_pos hmem, if_pos hsize]
    unfold postUpload
    rw [hm]
  · intro f type tid jdb now hmem hsize
    have hm : multerProcess 10 [f] = .ok [f] := by
      unfold multerProcess
      rw [if_neg (by decide), if_pos hmem, if_neg (by omega)]
      rfl
    unfold postUpload
    rw [hm]
    exact ⟨rfl, rfl⟩

/-- Witness for C6 at concrete files. -/
theorem uploadValidation_witness :
    (postUpload [⟨"u1.bin", "a.bin", "application/zip", 100⟩] none none [] 0).1
      = ⟨500, false, "Invalid file type. Only images and PDF files are allowed.",
          none⟩ ∧
    (postUpload [⟨"u2.png", "b.png", "image/png", 10485761⟩] none none [] 0).1
      = ⟨400, false, "File too large. Maximum size is 10MB", none⟩ ∧
    (postUpload [⟨"u3.png", "c.png", "image/png", 5⟩] none none [] 0).1.success
      = true :=
  ⟨uploadValidation.2.1 ⟨"u1.bin", "a.bin", "application/zip", 100⟩ none none [] 0
      (by decide),
   uploadValidation.2.2.1 ⟨"u2.png", "b.png", "image/png", 10485761⟩ none none [] 0
      (by decide) (by decide),
   (uploadValidation.2.2.2 ⟨"u3.png", "c.png", "image/png", 5⟩ none none [] 0
      (by decide) (by decide)).1⟩

/-! ## Claim C7: auth token issuance -/

theorem find?_user_of_mem (users : List UserRow) (un : String) (u : UserRow)
    (hdistinct : users.Pairwise (fun a b => a.username ≠ b.username))
    (hu : u ∈ users) (hname : u.username = un) :
    users.find? (fun x => x.username == un) = some u := by
  induction users with
  | nil => simp at hu
  | cons v vs ih =>
    rcases List.mem_cons.mp hu with rfl | hmem
    · simp [List.find?_cons, hname]
    · have hvne : v.username ≠ un := by
        have := (List.pairwise_cons.mp hdistinct).1 u hmem
        rw [← hname]
        exact this
      have htail := ih (List.pairwise_cons.mp hdistinct).2 hmem
      simpa [List.find?_cons, hvne] using htail

/-- C7: login returns success with a JWT signing the user id, username
and role with a 24h expiry exactly when the supplied username exists
and the password matches the stored hash under the bcrypt comparison;
a missing (falsy) username or password is a 400 with the fixed message;
an unknown username or a failed comparison is a 401 with message
`Invalid username or password` and no token. -/
theorem authLogin (users : List UserRow) (cmp : String → String → Bool)
    (hdistinct : users.Pairwise (fun a b => a.username ≠ b.username)) :
    (∀ username password : Option String,
      strTruthy username = false ∨ strTruthy password = false →
      loginHandler users cmp username password
        = ⟨400, false, "Username and password are required", none⟩) ∧
    (∀ un pw : String, un ≠ "" → pw ≠ "" →
      ((∀ u ∈ users, u.username ≠ un) →
        loginHandler users cmp (some un) (some pw)
          = ⟨401, false, "Invalid username or password", none⟩) ∧
      (∀ u ∈ users, u.username = un →
        (cmp pw u.password_hash = true →
          loginHandler users cmp (some un) (some pw)
            = ⟨200, true, "Login successful",
                some ⟨⟨u.id, u.username, u.role⟩, "24h"⟩⟩) ∧
        (cmp pw u.password_hash = false →
          loginHandler users cmp (some un) (some pw)
            = ⟨401, false, "Invalid username or password", none⟩))) := by
  constructor
  · intro username password h
    unfold loginHandler
    rw [if_pos h]
  · intro un pw hun hpw
    have hc : ¬ (strTruthy (some un) = false ∨ strTruthy (some pw) = false) := by
      simp [strTruthy, hun, hpw]
    constructor
    · intro hnone
      have hfind : users.find? (fun x => x.username == (some un : Option String).getD "")
          = none := by
        refine List.find?_eq_none.mpr ?_
        intro x hx
        simpa using hnone x hx
      unfold loginHandler
      rw [if_neg hc, hfind]
    · intro u hu hname
      have hfind : users.find? (fun x => x.username == (some un : Option String).getD "")
          = some u := find?_user_of_mem users un u hdistinct hu hname
      constructor
      · intro hcmp
        have hcmp2 : cmp ((some pw : Option String).getD "") u.password_hash = true := hcmp
        unfold loginHandler
        rw [if_neg hc, hfind]
        dsimp only
        rw [if_pos hcmp2]
      · intro hcmp
        have hcmp2 : cmp ((some pw : Option String).getD "") u.password_hash = false := hcmp
        unfold loginHandler
        rw [if_neg hc, hfind]
        dsimp only
        rw [if_neg (by simp [hcmp])]

/-- Witness for C7: one stored user, a matching and a failing password
(under a stand-in comparison function equating password and hash). -/
theorem authLogin_witness :
    loginHandler [⟨1, "admin", "H", "admin"⟩] (fun p h => p == h)
        (some "admin") (some "H")
      = ⟨200, true, "Login successful", some ⟨⟨1, "admin", "admin"⟩, "24h"⟩⟩ ∧
    loginHandler [⟨1, "admin", "H", "admin"⟩] (fun p h => p == h)
        (some "admin") (some "x")
      = ⟨401, false, "Invalid username or password", none⟩ ∧
    loginHandler [⟨1, "admin", "H", "admin"⟩] (fun p h => p == h)
        none (some "H")
      = ⟨400, false, "Username and password are required", none⟩ :=
  ⟨(((authLogin [⟨1, "admin", "H", "admin"⟩] (fun p h => p == h)
        (by simp)).2 "admin" "H" (by decide) (by decide)).2
      ⟨1, "admin", "H", "admin"⟩ (by simp) rfl).1 rfl,
   (((authLogin [⟨1, "admin", "H", "admin"⟩] (fun p h => p == h)
        (by simp)).2 "admin" "x" (by decide) (by decide)).2
      ⟨1, "admin", "H", "admin"⟩ (by simp) rfl).2 rfl,
   (authLogin [⟨1, "admin", "H", "admin"⟩] (fun p h => p == h)
        (by simp)).1 none (some "H") (by simp [strTruthy])⟩

/-! ## Claim C8: `POST /stt` error cleanup -/

/-- C8 counterexample: with an accepted and saved audio file but no
Groq API key configured, the handler answers 500 (`success:false`)
through the early return inside the `try`, and the saved temp audio
file is not deleted — it persists although the transcription failed. -/
theorem sttCleanup_cex :
    (sttHandler (some ⟨"a.webm", "uploads/temp_audio/a.webm", "a.webm",
        "audio/webm"⟩) none (.ok "hi")).1.success = false ∧
    (sttHandler (some ⟨"a.webm", "uploads/temp_audio/a.webm", "a.webm",
        "audio/webm"⟩) none (.ok "hi")).2 = true :=
  ⟨rfl, rfl⟩

/-- C8 (amended): when the Groq API key is configured, the temp audio
file never persists: both the success path and every caught error
delete it, and a failed vendor call is answered 500 with a JSON error
body.  The one exception is the missing-API-key early return, which
answers 500 while leaving the temp file in place. -/
theorem sttCleanup (f : SttFile) (key : String) (hkey : key ≠ "")
    (api : Except String String) :
    (sttHandler (some f) (some key) api).2 = false ∧
    (∀ e, api = .error e →
      (sttHandler (some f) (some key) api).1
        = ⟨500, false, some "Error transcribing audio", none⟩) ∧
    (sttHandler (some f) none api).1
      = ⟨500, false, some "Groq API key not configured", none⟩ ∧
    (sttHandler (some f) none api).2 = true := by
  have hk : ¬ (strTruthy (some key) = false) := by simp [strTruthy, hkey]
  refine ⟨?_, ?_, rfl, rfl⟩
  · unfold sttHandler
    rw [if_neg hk]
    cases api <;> rfl
  · intro e he
    subst he
    unfold sttHandler
    rw [if_neg hk]

/-- Witness for the amended C8 at concrete inputs. -/
theorem sttCleanup_witness :
    (sttHandler (some ⟨"a.webm", "uploads/temp_audio/a.webm", "a.webm",
        "audio/webm"⟩) (some "gsk_1") (.error "boom")).2 = false ∧
    (sttHandler (some ⟨"a.webm", "uploads/temp_audio/a.webm", "a.webm",
        "audio/webm"⟩) (some "gsk_1") (.error "boom")).1
      = ⟨500, false, some "Error transcribing audio", none⟩ :=
  ⟨(sttCleanup ⟨"a.webm", "uploads/temp_audio/a.webm", "a.webm", "audio/webm"⟩
      "gsk_1" (by decide) (.error "boom")).1,
   (sttCleanup ⟨"a.webm", "uploads/temp_audio/a.webm", "a.webm", "audio/webm"⟩
      "gsk_1" (by decide) (.error "boom")).2.1 "boom" rfl⟩

/-! ## Claim C10: at-most-once ticket creation -/

/-- C10 counterexample: the client can send two `POST /tickets` in one
session.  A first `done` response whose backend POST fails leaves
`ticketAlreadyCreated` false, so a second `done` response sends another
POST: after the two events below, two POSTs have been sent with no
`goToLanding` in between. -/
theorem atMostOnePost_cex :
    (runChat [ChatEvent.assistantResponse (some ⟨"done"⟩) false,
              ChatEvent.assistantResponse (some ⟨"done"⟩) true]
        initSession).postsSent = 2 :=
  rfl

theorem applyChat_created_inv (e : ChatEvent) (s : SessionState)
    (h1 : s.ticketAlreadyCreated = false → s.createdCount = 0)
    (h2 : s.createdCount ≤ 1) :
    ((applyChat e s).ticketAlreadyCreated = false →
      (applyChat e s).createdCount = 0) ∧
    (applyChat e s).createdCount ≤ 1 := by
  cases e with
  | assistantResponse parsed ok =>
    cases parsed with
    | none => exact ⟨h1, h2⟩
    | some st =>
      unfold applyChat
      dsimp only
      by_cases hph : st.phase = ""
      · rw [if_pos hph]
        exact ⟨h1, h2⟩
      · rw [if_neg hph]
        by_cases hdone : st.phase = "done" ∧ s.ticketAlreadyCreated = false
        · rw [if_pos hdone]
          cases ok with
          | true =>
            refine ⟨?_, ?_⟩
            · intro hfl
              simp at hfl
            · have := h1 hdone.2
              simp [this]
          | false =>
            exact ⟨fun _ => h1 hdone.2, h2⟩
        · rw [if_neg hdone]
          exact ⟨h1, h2⟩
  | uploadSuccess fn => exact ⟨h1, h2⟩
  | backToLanding => exact ⟨fun _ => rfl, by simp [applyChat, initSession]⟩

theorem runChat_created_inv (es : List ChatEvent) (s : SessionState)
    (h1 : s.ticketAlreadyCreated = false → s.createdCount = 0)
    (h2 : s.createdCount ≤ 1) :
    (runChat es s).createdCount ≤ 1 := by
  induction es generalizing s with
  | nil => exact h2
  | cons e es ih =>
    have hstep := applyChat_created_inv e s h1 h2
    exact ih (applyChat e s) hstep.1 hstep.2

/-- C10 (amended): at most one ticket is successfully created per
session.  Once a ticket was successfully created the flag stays true
under every event except `goToLanding`, and such events send no
further `POST /tickets`; a successful creation on a `done` response
sets the flag and moves the phase to `completed`; `goToLanding` resets
the flag, the phase to `greeting` and the uploaded-files record; and
along any session the number of successful creations never exceeds
one.  (A failed creation attempt leaves the flag false, so a later
`done` response retries the POST — hence the count of POSTs sent, as
opposed to tickets created, can exceed one.) -/
theorem atMostOneCreate (s : SessionState) (es : List ChatEvent) :
    (∀ e, e ≠ ChatEvent.backToLanding → s.ticketAlreadyCreated = true →
      (applyChat e s).ticketAlreadyCreated = true ∧
      (applyChat e s).postsSent = s.postsSent) ∧
    applyChat ChatEvent.backToLanding s = initSession ∧
    (∀ (st : LLMState) (ok : Bool), s.ticketAlreadyCreated = false →
      st.phase = "done" → ok = true →
      applyChat (ChatEvent.assistantResponse (some st) ok) s
        = { s with
            currentPhase := "completed"
            ticketAlreadyCreated := true
            postsSent := s.postsSent + 1
            createdCount := s.createdCount + 1 }) ∧
    (runChat es initSession).createdCount ≤ 1 := by
  refine ⟨?_, rfl, ?_, ?_⟩
  · intro e he hflag
    cases e with
    | assistantResponse parsed ok =>
      cases parsed with
      | none => exact ⟨hflag, rfl⟩
      | some st =>
        unfold applyChat
        dsimp only
        by_cases hph : st.phase = ""
        · rw [if_pos hph]
          exact ⟨hflag, rfl⟩
        · rw [if_neg hph]
          have hdone : ¬ (st.phase = "done" ∧ s.ticketAlreadyCreated = false) := by
            rintro ⟨_, hf⟩
            rw [hflag] at hf
            exact Bool.noConfusion hf
          rw [if_neg hdone]
          exact ⟨hflag, rfl⟩
    | uploadSuccess fn => exact ⟨hflag, rfl⟩
    | backToLanding => exact absurd rfl he
  · intro st ok hflag hph hok
    subst hok
    unfold applyChat
    dsimp only
    rw [if_neg (by simp [hph]), if_pos ⟨hph, hflag⟩, if_pos rfl]
  · exact runChat_created_inv es initSession (fun _ => rfl) (by decide)

/-- Witness for the amended C10: after a successful creation, a further
`done` response changes neither the flag nor the POST count, and
`goToLanding` resets the session. -/
theorem atMostOneCreate_witness :
    (applyChat (ChatEvent.assistantResponse (some ⟨"done"⟩) true)
        ⟨true, "completed", initUploadedFiles, 1, 1⟩).ticketAlreadyCreated = true ∧
    (applyChat (ChatEvent.assistantResponse (some ⟨"done"⟩) true)
        ⟨true, "completed", initUploadedFiles, 1, 1⟩).postsSent = 1 ∧
    applyChat ChatEvent.backToLanding
        ⟨true, "completed", initUploadedFiles, 1, 1⟩ = initSession ∧
    (runChat [ChatEvent.assistantResponse (some ⟨"done"⟩) false,
              ChatEvent.assistantResponse (some ⟨"done"⟩) true]
        initSession).createdCount ≤ 1 :=
  ⟨((atMostOneCreate ⟨true, "completed", initUploadedFiles, 1, 1⟩ []).1
      (ChatEvent.assistantResponse (some ⟨"done"⟩) true) (by simp) rfl).1,
   ((atMostOneCreate ⟨true, "completed", initUploadedFiles, 1, 1⟩ []).1
      (ChatEvent.assistantResponse (some ⟨"done"⟩) true) (by simp) rfl).2,
   (atMostOneCreate ⟨true, "completed", initUploadedFiles, 1, 1⟩ []).2.1,
   (atMostOneCreate initSession
      [ChatEvent.assistantResponse (some ⟨"done"⟩) false,
       ChatEvent.assistantResponse (some ⟨"done"⟩) true]).2.2.2⟩

end NajmPOC
